import Mathlib

/-!
Verification development for the EvoGen evolutionary solve loop
(`src/gen_ai_04.py`, the latest variant of the repository; `src/gen_ai.py`
differs only in JSON key names and in not requiring the `output_labels` key).
Python dictionaries, lists, strings, integers, booleans and `None` are
modelled by the `PyVal` type below; the LLM backend, the JSON parser and the
Tavily search backend are oracles (plain functions passed as parameters);
raised Python exceptions are modelled with `Except String`.
-/

namespace EvoGen

/-- Model of the dynamic Python/JSON values the program manipulates.
Floating point numbers never reach the scoring pipeline (judge scores are
requested as 0-100 integers), so numbers are modelled as integers. -/
inductive PyVal where
  | vnone : PyVal
  | vbool : Bool → PyVal
  | vint : Int → PyVal
  | vstr : String → PyVal
  | vlist : List PyVal → PyVal
  | vdict : List (String × PyVal) → PyVal
deriving Inhabited

/-- Python truthiness (`bool(v)`): `None`/`False`/`0`/empty containers are falsy. -/
def pyTruthy : PyVal → Bool
  | .vnone => false
  | .vbool b => b
  | .vint n => n != 0
  | .vstr s => !s.isEmpty
  | .vlist l => !l.isEmpty
  | .vdict fs => !fs.isEmpty

/-- `isinstance(v, dict)`. -/
def isDictB : PyVal → Bool
  | .vdict _ => true
  | _ => false

/-- `k in v` for a dict `v`; on a non-dict the Python `in` would raise, but
every use in the program is guarded by an `isinstance(..., dict)` check, so
the non-dict case is modelled as `false`. -/
def hasKeyB (v : PyVal) (k : String) : Bool :=
  match v with
  | .vdict fs => fs.any (fun f => f.1 == k)
  | _ => false

/-- `v.get(k, d)`; every call site either guards with an `isinstance` check
or holds a dict built by the program itself, so the non-dict case (which
would raise in Python) is modelled by the default. -/
def pyGetD (v : PyVal) (k : String) (d : PyVal) : PyVal :=
  match v with
  | .vdict fs =>
    match fs.find? (fun f => f.1 == k) with
    | some f => f.2
    | none => d
  | _ => d

/-- Replace the binding of `k` (or append it), modelling `v[k] = x` on a dict. -/
def setField (k : String) (x : PyVal) : List (String × PyVal) → List (String × PyVal)
  | [] => [(k, x)]
  | f :: fs => if f.1 == k then (k, x) :: fs else f :: setField k x fs

/-- `v[k] = x`; only ever applied to dicts by the program. -/
def dictSet (v : PyVal) (k : String) (x : PyVal) : PyVal :=
  match v with
  | .vdict fs => .vdict (setField k x fs)
  | _ => v

/-- Python `sep.join(l)`. -/
def pyJoin (sep : String) : List String → String
  | [] => ""
  | [x] => x
  | x :: xs => x ++ sep ++ pyJoin sep xs

/-- A single-quote character, built numerically. -/
def pyQuote : String := String.singleton (Char.ofNat 39)

/-- An opening brace character, built numerically. -/
def lbraceStr : String := String.singleton (Char.ofNat 123)

/-- A closing brace character, built numerically. -/
def rbraceStr : String := String.singleton (Char.ofNat 125)

mutual

/-- Python `repr(v)` (string escaping inside reprs is not reproduced; no
theorem depends on it). -/
def pyRepr : PyVal → String
  | .vnone => "None"
  | .vbool true => "True"
  | .vbool false => "False"
  | .vint n => toString n
  | .vstr s => pyQuote ++ s ++ pyQuote
  | .vlist xs => "[" ++ pyJoin ", " (pyReprList xs) ++ "]"
  | .vdict fs => lbraceStr ++ pyJoin ", " (pyReprFields fs) ++ rbraceStr

/-- `repr` of the elements of a list. -/
def pyReprList : List PyVal → List String
  | [] => []
  | x :: xs => pyRepr x :: pyReprList xs

/-- `repr` of the fields of a dict. -/
def pyReprFields : List (String × PyVal) → List String
  | [] => []
  | f :: fs => (pyQuote ++ f.1 ++ pyQuote ++ ": " ++ pyRepr f.2) :: pyReprFields fs

end

/-- Python `str(v)` as used by f-string interpolation. -/
def pyStr : PyVal → String
  | .vstr s => s
  | v => pyRepr v

/-- Python `round(s / n)` for an integer sum `s` of judge scores and a judge
count `n > 0`: nearest integer to the exact rational `s / n`, ties going to
the even neighbour (Python's banker's rounding).  The float division in the
source introduces no further rounding at any score magnitude the judges can
produce. -/
def pyRound (s : Int) (n : Nat) : Int :=
  let q := Int.fdiv s n
  let r := s - q * n
  if 2 * r < n then q
  else if (n : Int) < 2 * r then q + 1
  else if q % 2 = 0 then q else q + 1

/-- One step of Python `sum(...)` over `e.get('total_score', 0)` values:
adding a non-numeric value raises `TypeError` (`bool` counts as an int in
Python). -/
def pyAddScore (acc : Int) (v : PyVal) : Except String Int :=
  match v with
  | .vint n => .ok (acc + n)
  | .vbool b => .ok (acc + (if b then 1 else 0))
  | _ => .error "TypeError: unsupported operand type(s) for +"

/-- `sum(e.get('total_score', 0) for e in judges)`: left-to-right, raising at
the first non-numeric score. -/
def pyScoreSum (judges : List PyVal) : Except String Int :=
  judges.foldlM (fun acc e => pyAddScore acc (pyGetD e "total_score" (.vint 0))) 0

/-- Stable descending insertion step: `a` (earlier in the original order)
goes before every later element of equal key, modelling the stability of
`list.sort(key=..., reverse=True)` / `sorted(..., reverse=True)`. -/
def insertDesc (k : PyVal → Int) (a : PyVal) : List PyVal → List PyVal
  | [] => [a]
  | b :: t => if k b ≤ k a then a :: b :: t else b :: insertDesc k a t

/-- Stable descending sort by an integer key, modelling Python's stable
`sort(key=..., reverse=True)`. -/
def sortDesc (k : PyVal → Int) : List PyVal → List PyVal
  | [] => []
  | a :: t => insertDesc k a (sortDesc k t)

/-- `text.find(c)`: index of the first occurrence, `-1` if absent. -/
def pyFind (s : String) (c : Char) : Int :=
  match s.data.findIdx? (fun x => x == c) with
  | some i => (i : Int)
  | none => -1

/-- `text.rfind(c)`: index of the last occurrence, `-1` if absent. -/
def pyRfind (s : String) (c : Char) : Int :=
  match s.data.reverse.findIdx? (fun x => x == c) with
  | some i => ((s.data.length - 1 - i : Nat) : Int)
  | none => -1

/-- `GeminiClient._extract_json`: substring from the first `\x7b`/`[` to the
last `\x7d`/`]`, `None` when no such block exists. -/
def extractJson (text : String) : Option String :=
  if text.isEmpty then none
  else
    let startBrace := pyFind text (Char.ofNat 123)
    let startBracket := pyFind text (Char.ofNat 91)
    if startBrace = -1 ∧ startBracket = -1 then none
    else
      let start :=
        if startBrace = -1 then startBracket
        else if startBracket = -1 then startBrace
        else min startBrace startBracket
      let endBrace := pyRfind text (Char.ofNat 125)
      let endBracket := pyRfind text (Char.ofNat 93)
      if endBrace = -1 ∧ endBracket = -1 then none
      else
        let e := max endBrace endBracket
        if e ≤ start then none
        else some (String.mk ((text.data.drop start.toNat).take (e.toNat + 1 - start.toNat)))

/-- `GeminiClient._get_json_repair_prompt`. -/
def getJsonRepairPrompt (malformedText : String) : String :=
  "
        # 指示
        あなたは以前、JSON形式での出力を求められましたが、以下のテキストを生成しました。
        しかし、このテキストはJSONとして正しくパース（解析）できませんでした。

        # 不正な形式のテキスト
        ```
        " ++ malformedText ++ "
        ```

        # タスク
        上記のテキスト内容を**完全に**反映しつつ、**マークダウン (```json ... ```) や説明文を一切含まない、
        厳密に正しいJSONオブジェクト（`\x7b ... \x7d` または `[ ... ]` で始まる）**
        として修正し、そのJSONだけを出力してください。
        "

/-- A text-generation backend outcome: the response text, or a raised
exception carrying its message. -/
inductive GenOut where
  | text : String → GenOut
  | exn : String → GenOut

/-- `GeminiClient.call`, instrumented: `gen` is the text-generation backend
and `parse` is `json.loads` (both oracles); the `Bool` is `is_retry`.
Returns the Python return value together with the list of prompts that were
sent to the backend (for counting the repair re-prompts).  The `try/except`
of the source corresponds to the `GenOut.exn` branch; the function is total,
modelling that `call` never lets an exception escape. -/
def call (gen : String → GenOut) (parse : String → Except String PyVal) :
    Bool → String → PyVal × List String
  | true, prompt =>
    match gen prompt with
    | .exn e => (.vdict [("error", .vstr ("API call failed during retry: " ++ e))], [prompt])
    | .text t =>
      match extractJson t with
      | some cleaned =>
        match parse cleaned with
        | .ok v => (v, [prompt])
        | .error e =>
          (.vdict [("raw_text", .vstr t), ("parse_error", .vstr ("Retry failed: " ++ e))],
            [prompt])
      | none =>
        (.vdict [("raw_text", .vstr t), ("parse_error", .vstr "Retry failed: No JSON block found")],
          [prompt])
  | false, prompt =>
    match gen prompt with
    | .exn e => (.vdict [("error", .vstr e)], [prompt])
    | .text t =>
      match extractJson t with
      | some cleaned =>
        match parse cleaned with
        | .ok v => (v, [prompt])
        | .error _ =>
          let inner := call gen parse true (getJsonRepairPrompt t)
          (inner.1, prompt :: inner.2)
      | none =>
        let inner := call gen parse true (getJsonRepairPrompt t)
        (inner.1, prompt :: inner.2)
termination_by b _ => if b then 0 else 1

/-- `PromptManager.get_tavily_multi_phase_query_prompt`. -/
def getTavilyMultiPhaseQueryPrompt (problemStatement : String) : String :=
  "
        あなたは、提示された「課題」を解決するための調査を2段階で行う専門の調査員です。

        以下の「課題」を分析し、2つのフェーズに対応する**日本語の検索クエリ**をそれぞれ4つずつ生成してください。

        # フェーズ1: 現状・背景分析
        課題文に含まれる固有名詞（組織名、地名、特定のシステム名など）を特定し、
        その対象の「最新情報」「現状のデータ」「関連する背景や制約」を調査するためのクエリ。

        # フェーズ2: 解決策の事例・技術調査
        課題そのものを解決するための「最新の対策事例」「関連する新しい技術の動向」「他分野での成功事例」を調査するためのクエリ。

        # 課題
        " ++ problemStatement ++ "

        # 出力形式 (JSON)
        \x7b
          \"analysis_queries\": [
            \"フェーズ1のクエリ1 (日本語)\",
            \"フェーズ1のクエリ2 (日本語)\",
            \"フェーズ1のクエリ3 (日本語)\",
            \"フェーズ1のクエリ4 (日本語)\"
          ],
          \"solution_queries\": [
            \"フェーズ2のクエリ1 (日本語)\",
            \"フェーズ2のクエリ2 (日本語)\",
            \"フェーズ2のクエリ3 (日本語)\",
            \"フェーズ2のクエリ4 (日本語)\"
          ]
        \x7d
        "

/-- `PromptManager.get_agent_personas_prompt`. -/
def getAgentPersonasPrompt (problemStatement : String) : String :=
  "
        # 役割
        あなたは、非常に複雑な課題を解決するために、AIエージェントからなる「スウォーム（群れ）」を編成する「マスタープランナー」です。

        # タスク
        以下の「課題」を解決するために、最も効果的なAIエージェント群と、成果物の表示ラベルを定義してください。
        編成は以下のステップで厳密に行ってください。

        ## ステップ1: 課題の徹底分析 (Your Internal Monologue)
        1.  **核心的目標(Goal)は何か？**
        2.  **タスクの性質**: この課題は「解決策(Solution)」か「創作物(Creative)」か？
        3.  **主要な制約(Constraints)は何か？**
        4.  **主要な利害関係者(Stakeholders)は誰か？**

        ## ステップ2: 解決・進化担当エージェント (10体) の定義
        - ステップ1の分析に基づき、課題解決に最適化された「互いに異なる10の視点」を持つ専門家（solver_agents）を定義してください。
        - **重要**: 「マーケター」のような一般的な役割ではなく、「**[利害関係者]の[特定の課題]を解決する専門家**」や「**[主要な制約]をクリアする[特定技術]の専門家**」のように、**この課題専用に特化させた役割（role）**を定義してください。
        - `instructions`には、その専門性を活かして「初期解の生成」と「既存解の進化」の両方でどう振る舞うべきか具体的に指示してください。

        ## ステップ3: 課題特化型 評価エージェント (3体) の定義
        - ステップ1の分析に基づき、生成された提案を評価するために**最も重要となる3つの異なる評価観点**を特定してください。
        - その3つの観点に基づき、それぞれ専門の評価エージェント（evaluators）を3体定義してください。
        - `role`: あなたが考案した、課題に特化した評価者の役割名。
        - `evaluation_guideline`: (v11.0のまま) その役割が提案を厳密に評価するために使用する、**具体的かつ詳細な評価指針（ガイドライン）**。

        ## ステップ4: 動的UIラベルの定義 (v13.0)
        - ステップ1の「タスクの性質」分析に基づき、最終的な成果物をUIに表示するための2つのラベル (`output_labels`) を定義してください。
        - **`main_label`**: 成果物の「核」となる部分のラベル。(例: \"提案の名称\", \"創作した俳句\")
        - **`details_label`**: 成果物の「詳細」となる部分のラベル。(例: \"概要と具体的な方法\", \"俳句の意図と背景\")

        # 課題
        " ++ problemStatement ++ "

        # 出力形式 (JSON)
        \x7b
          \"output_labels\": \x7b
             \"main_label\": \"（ステップ4で定義したメインラベル）\",
             \"details_label\": \"（ステップ4で定義した詳細ラベル）\"
          \x7d,
          \"solver_agents\": [
            \x7b \"role\": \"（ステップ2で定義した専門的役割1）\", \"instructions\": \"...\" \x7d,
            // ... (10体分)
            \x7b \"role\": \"（ステップ2で定義した専門的役割10）\", \"instructions\": \"...\" \x7d
          ],
          \"evaluators\": [
            \x7b \"role\": \"（ステップ3で考案した評価役割1）\", \"evaluation_guideline\": \"...\" \x7d,
            \x7b \"role\": \"（ステップ3で考案した評価役割2）\", \"evaluation_guideline\": \"...\" \x7d,
            \x7b \"role\": \"（ステップ3で考案した評価役割3）\", \"evaluation_guideline\": \"...\" \x7d
          ]
        \x7d
        "

/-- The per-agent block of `PromptManager.get_all_agent_queries_prompt`
(the `agent_list_text` entries for one agent). -/
def agentDefinitionBlock (i : Nat) (agent : PyVal) : List String :=
  ["### エージェント " ++ toString (i + 1),
   "role: \"" ++ pyStr (pyGetD agent "role" (.vstr "N/A")) ++ "\"",
   "instructions: " ++ pyStr (pyGetD agent "instructions" (.vstr "N/A"))]

/-- `PromptManager.get_all_agent_queries_prompt` (v16.0 batched query
generation for all solver agents at once). -/
def getAllAgentQueriesPrompt (problemStatement : String) (solverAgents : List PyVal) : String :=
  let agentsDefinitionBlock :=
    pyJoin "\n" ((solverAgents.enum.map (fun p => agentDefinitionBlock p.1 p.2)).flatten)
  "
        # 全体の課題
        " ++ problemStatement ++ "

        # 編成された専門家チーム (10体)
        " ++ agentsDefinitionBlock ++ "

        # タスク
        あなたは、上記の専門家チーム（10体）の調査を補佐する「調査チーフ」です。
        各専門家が、その独自の「役割(role)」と「指示(instructions)」に基づき、
        「全体の課題」に対する優れた提案を行うために必要となる
        **日本語の検索クエリ**を、各エージェントごとに**厳密に2つ**ずつ生成してください。

        # !!最重要!! 出力形式 (JSON)
        - 10体のエージェント全員分のクエリを生成してください。
        - キーは、上記で提示された**「role」の文字列と完全に一致**させてください。
        - JSONオブジェクト `\x7b ... \x7d` のみを出力してください。

        \x7b
          \"agent_queries\": \x7b
            \"（エージェント1の role 文字列）\": [
              \"（エージェント1の視点での検索クエリ1）\",
              \"（エージェント1の視点での検索クエリ2）\"
            ],
            \"（エージェント2の role 文字列）\": [
              \"（エージェント2の視点での検索クエリ1）\",
              \"（エージェント2の視点での検索クエリ2）\"
            ],
            // ... 10体全員分 ...
            \"（エージェント10の role 文字列）\": [
              \"（エージェント10の視点での検索クエリ1）\",
              \"（エージェント10の視点での検索クエリ2）\"
            ]
          \x7d
        \x7d
        "

/-- `PromptManager.get_agent_specific_analysis_prompt`. -/
def getAgentSpecificAnalysisPrompt (problemStatement agentRole agentInstructions rawContentText : String) : String :=
  "
        # 全体の課題
        " ++ problemStatement ++ "

        # あなたの専門家としての役割
        あなたは「" ++ agentRole ++ "」です。

        # あなたへの指示
        " ++ agentInstructions ++ "

        # あなた専用の調査資料 (Webページ全文)
        " ++ rawContentText ++ "

        # タスク
        あなたは今、あなたの役割専用の「調査資料」（Webページの全文）を読み終えました。
        あなたの「役割」と「指示」に厳密に従い、上記の「全体の課題」に対する
        独自の提案を生成するために、この調査資料から得られる
        **最も重要で具体的な洞察（キーインサイト）**を、
        **簡潔な箇条書きで10個程度**、抽出してください。

        # 出力形式 (JSON)
        \x7b
          \"key_insights\": [
            \"（" ++ agentRole ++ "の視点で抽出した重要な洞察1）\",
            \"（" ++ agentRole ++ "の視点で抽出した重要な洞察2）\",
            \"（" ++ agentRole ++ "の視点で抽出した重要な洞察3）\",
            \"（" ++ agentRole ++ "の視点で抽出した重要な洞察4）\",
            \"（" ++ agentRole ++ "の視点で抽出した重要な洞察5）\",
            \"（" ++ agentRole ++ "の視点で抽出した重要な洞察6）\",
            \"（" ++ agentRole ++ "の視点で抽出した重要な洞察7）\",
            \"（" ++ agentRole ++ "の視点で抽出した重要な洞察8）\",
            \"（" ++ agentRole ++ "の視点で抽出した重要な洞察9）\",
            \"（" ++ agentRole ++ "の視点で抽出した重要な洞察10）\"
          ]
        \x7d
        "

/-- `insights_text` as built by the initial-generation and next-generation
prompts: `"\n".join(f"- \x7bitem\x7d" ...)` when `agent_research_insights` is a
non-empty list, the placeholder text otherwise (a truthy non-list value
would raise in Python and is never produced by the program). -/
def insightsText (context : PyVal) : String :=
  match pyGetD context "agent_research_insights" (.vlist []) with
  | .vlist [] => "（追加の調査情報なし）"
  | .vlist items => pyJoin "\n" (items.map (fun item => "- " ++ pyStr item))
  | _ => "（追加の調査情報なし）"

/-- `PromptManager.get_initial_generation_prompt`. -/
def getInitialGenerationPrompt (problemStatement : String) (numSolutions : Nat) (context : PyVal) : String :=
  "
        # 役割: " ++ pyStr (pyGetD context "role" (.vstr "あなたは一流のイノベーターです。")) ++ "
        # 指示: " ++ pyStr (pyGetD context "instructions"
            (.vstr ("以下の課題に対し、互いに全く異なるアプローチからの提案を" ++ toString numSolutions ++ "個生成してください。"))) ++ "
        # 課題文: " ++ problemStatement ++ "

        # ★あなた専用の調査情報 (v15.0)★
        # 以下の個別の調査結果を**必ず**参考にして、独自の提案を生成してください。
        " ++ insightsText context ++ "

        # !!最重要!! (出力形式)
        各提案に「proposal_main」「proposal_details」を必ず含め、JSON形式でリストとして出力してください。

        # 出力項目の定義 (v13.0)
        * **proposal_main**: 提案の「核」となる部分。(例: 「提案の名称」 または 「創作物そのもの」)
        * **proposal_details**: 提案の「詳細」となる部分。(例: 「具体的な内容や方法、得られる効果」 または 「意図、背景、理由、狙い」) を2〜4行で説明してください。
        * **重要**: 「proposal_details」には箇条書き、マークダウン、ネストされたJSONを使用しないでください。ただし、**文章内での改行コード(\n)は使用して構いません。**

        # 出力JSONの例
        \x7b
          \"solutions\": [
            \x7b
              \"proposal_main\": \"提案1の核 (名称 または 創作物そのもの)\",
              \"proposal_details\": \"提案1の詳細 (具体的な内容、意図、背景、理由、効果など) を説明する2〜4行の文章です。\nこのように改行を含めても構いません。\"
            \x7d
          ]
        \x7d
        "

/-- `PromptManager.get_evaluation_prompt`. -/
def getEvaluationPrompt (solution : PyVal) (problemStatement : String) (context : PyVal) : String :=
  let evaluatorRole := pyStr (pyGetD context "role" (.vstr "あなたは客観的で厳しい批評家です。"))
  let evaluationGuideline := pyStr (pyGetD context "evaluation_guideline"
      (.vstr "提示された提案を、課題の要件に基づき厳密に評価してください。"))
  "
        # あなたの厳格な役割
        あなたは「" ++ evaluatorRole ++ "」です。

        # あなたの最重要評価ガイドライン
        " ++ evaluationGuideline ++ "

        # 評価対象の課題
        " ++ problemStatement ++ "

        # 評価対象の提案 (v13.0)
        - 提案の核 (名称/創作物): " ++ pyStr (pyGetD solution "proposal_main" (.vstr "内容なし")) ++ "
        - 提案の詳細 (方法/理由): " ++ pyStr (pyGetD solution "proposal_details" (.vstr "詳細なし")) ++ "

        # タスク
        あなたの「役割」と「最重要評価ガイドライン」に厳密に従い、上記の「提案」を評価してください。
        ガイドラインに照らして、この提案が課題をどれだけ効果的に解決/達成できるか、または劣っているかを具体的に分析してください。

        # 出力形式 (JSON)
        \x7b
          \"total_score\": (0-100の整数),
          \"strengths\": \"（" ++ evaluatorRole ++ "の観点で優れている点）\",
          \"weaknesses\": \"（" ++ evaluatorRole ++ "の観点で懸念・改善が必要な点）\",
          \"overall_comment\": \"（" ++ evaluatorRole ++ "の観点での総括）\"
        \x7d
        "

/-- One `elite_text` line of `PromptManager.get_next_generation_prompt`:
`f"- \x7bs['solution'].get('proposal_main', 'N/A')\x7d (スコア: \x7bs['evaluation'].get('total_score', 0)\x7d)"`
(the `['solution']`/`['evaluation']` indexings are modelled by defaulted
lookups; every entry the solver builds carries both keys). -/
def eliteLine (s : PyVal) : String :=
  "- " ++ pyStr (pyGetD (pyGetD s "solution" (.vdict [])) "proposal_main" (.vstr "N/A"))
    ++ " (スコア: " ++ pyStr (pyGetD (pyGetD s "evaluation" (.vdict [])) "total_score" (.vint 0)) ++ ")"

/-- One `failed_text` line of `PromptManager.get_next_generation_prompt`:
`f"- \x7bs['solution'].get('proposal_main', 'N/A')\x7d (弱点: \x7bs['evaluation'].get('weaknesses', 'N/A')\x7d)"`. -/
def failedLine (s : PyVal) : String :=
  "- " ++ pyStr (pyGetD (pyGetD s "solution" (.vdict [])) "proposal_main" (.vstr "N/A"))
    ++ " (弱点: " ++ pyStr (pyGetD (pyGetD s "evaluation" (.vdict [])) "weaknesses" (.vstr "N/A")) ++ ")"

/-- `PromptManager.get_next_generation_prompt` (the recombination prompt). -/
def getNextGenerationPrompt (eliteSols failedSols : List PyVal) (problemStatement : String)
    (numSolutions : Nat) (context : PyVal) : String :=
  let eliteText := pyJoin "\n" (eliteSols.map eliteLine)
  let failedText := pyJoin "\n" (failedSols.map failedLine)
  "
        # 役割: " ++ pyStr (pyGetD context "role" (.vstr "あなたは優れた戦略家であり編集者です。")) ++ "
        # 指示: " ++ pyStr (pyGetD context "instructions"
            (.vstr "高評価案の良い点を組み合わせ、低評価案の失敗から学び、新しい提案を生成してください。")) ++ "
        # タスク: 前世代の分析に基づき、次世代の新しい提案を" ++ toString numSolutions ++ "個生成してください。

        # 分析対象1：高評価だった提案（優れた遺伝子）:
        " ++ eliteText ++ "
        # 分析対象2：低評価だった提案（学ぶべき教訓）:
        " ++ failedText ++ "

        # ★あなた専用の調査情報 (v15.0)★
        # 以下の個別の調査結果も**必ず**参考にして、提案を進化させてください。
        " ++ insightsText context ++ "

        # 新しい提案の生成指示: " ++ pyStr (pyGetD context "instructions" .vnone) ++ "

        # !!最重要!! (出力形式)
        各提案に「proposal_main」「proposal_details」を必ず含め、JSON形式でリストとして出力してください。

        # 出力項目の定義 (v13.0)
        * **proposal_main**: 提案の「核」となる部分。 (例: 「提案の名称」 または 「創作物そのもの」)
        * **proposal_details**: 提案の「詳細」となる部分。 (例: 「具体的な内容や方法、得られる効果」 または 「意図、背景、理由、狙い」) を2〜4行で説明してください。
        * **重要**: 「proposal_details」には箇条書き、マークダウン、ネストされたJSONを使用しないでください。ただし、**文章内での改行コード(\n)は使用して構いません。**

        # 出力JSONの例
        \x7b
          \"solutions\": [
            \x7b
              \"proposal_main\": \"新しい提案1の核 (名称 または 創作物そのもの)\",
              \"proposal_details\": \"新しい提案1の詳細 (内容、意図、背景、理由、効果など) を説明する2〜4行の文章です。\"
            \x7d
          ]
        \x7d
        "

/-- `PromptManager.get_revolutionary_generation_prompt` (the mutation
prompt): depends only on the problem statement, the number of solutions
and the roster's role denylist — no elite or failed entry reaches it. -/
def getRevolutionaryGenerationPrompt (problemStatement : String) (numSolutions : Nat)
    (existingRoles : List PyVal) : String :=
  let existingRolesList :=
    if existingRoles.isEmpty then "なし"
    else pyJoin "\n" (existingRoles.map (fun role => "- " ++ pyStr role))
  "
        # 役割:
        あなたは「常識外れのイノベーター」を任命するマスタープランナーです。
        あなたは「突然変異」を引き起こすため、既存の提案や過去の評価（エリート解、失敗解）、
        および**既存のエージェント調査情報もすべて無視**します。

        # タスク:
        以下の「課題」に対し、既存のエージェントとは**全く異なる新しい観点**を持つ
        「革新的な専門家」を" ++ toString numSolutions ++ "人（または" ++ toString numSolutions ++ "個）定義し、
        その専門家の視点から、革新的な提案を" ++ toString numSolutions ++ "個生成してください。

        # 課題文:
        " ++ problemStatement ++ "

        # 既存の専門家ロール (これらとは異なる視点にすること):
        " ++ existingRolesList ++ "

        # !!重要!!
        - ステップ1（内部思考）: 既存ロールがカバーしていない、全く新しい「役割（ロール）」を考案する。
        - ステップ2（内部思考）: その役割に基づき、革新的な提案（proposal_main, proposal_details）を考案する。
        - ステップ3（出力）: 考案した提案を、指定されたJSON形式で出力する。

        # !!最重要!! (出力形式)
        各提案に「proposal_main」「proposal_details」を必ず含め、JSON形式でリストとして出力してください。
        「proposal_main」には、考案した新しい専門家の役割や、その革新性が伝わるような名称/創作物を設定してください。

        # 出力項目の定義 (v13.0)
        * **proposal_main**: 提案の「核」となる部分。 (例: 「提案の名称」 または 「創作物そのもの」)
        * **proposal_details**: 提案の「詳細」となる部分。 (例: 「具体的な内容や方法、得られる効果」 または 「意図、背景、理由、狙い」) を2〜4行で説明してください。
        * **重要**: 「proposal_details」には箇条書き、マークダウン、ネストされたJSONを使用しないでください。ただし、**文章内での改行コード(\n)は使用して構いません。**

        # 出力JSONの例
        \x7b
          \"solutions\": [
            \x7b
              \"proposal_main\": \"（考案した新専門家の役割を反映した革新的な名称 または 創作物）\",
              \"proposal_details\": \"（その提案の詳細 (内容、意図、背景、理由、効果など) を説明する2〜4行の文章です。）\"
            \x7d
          ]
        \x7d
        "

/-- The validity check a single judge response must pass
(`isinstance(evaluation, dict) and "total_score" in evaluation and "error" not in evaluation`). -/
def isValidEvaluation (v : PyVal) : Bool :=
  isDictB v && hasKeyB v "total_score" && !(hasKeyB v "error")

/-- The judge responses that pass the validity check for one solution, in
evaluator order (`individual_evaluations` in `_evaluate_solutions`);
`llm` is the structured-output gateway (`self._call_llm`). -/
def validJudges (llm : String → PyVal) (problem : String) (evaluators : List PyVal)
    (solution : PyVal) : List PyVal :=
  evaluators.filterMap (fun ctx =>
    let ev := llm (getEvaluationPrompt solution problem ctx)
    if isValidEvaluation ev then some ev else none)

/-- One judge-attributed text block of the aggregated commentary:
`f"評価者\x7bk+1\x7d (\x7be.get('role', 'N/A')\x7d):\n\x7be.get(field, 'N/A')\x7d"`. -/
def judgeBlock (field : String) (k : Nat) (e : PyVal) : String :=
  "評価者" ++ toString (k + 1) ++ " (" ++ pyStr (pyGetD e "role" (.vstr "N/A")) ++ "):\n"
    ++ pyStr (pyGetD e field (.vstr "N/A"))

/-- `"\n---\n".join(...)` of the judge-attributed blocks for one text field. -/
def aggField (field : String) (judges : List PyVal) : String :=
  pyJoin "\n---\n" (judges.enum.map (fun p => judgeBlock field p.1 p.2))

/-- The loop body of `_evaluate_solutions` for one solution: skip (`none`)
when the solution is malformed or has zero valid judge responses, otherwise
build the `{"solution": ..., "evaluation": ...}` entry; `.error` models the
`TypeError` that `sum(...)` raises on a non-numeric score. -/
def aggregateOne (llm : String → PyVal) (problem : String) (evaluators : List PyVal)
    (solution : PyVal) : Except String (Option PyVal) :=
  if !(isDictB solution && hasKeyB solution "proposal_main") then .ok none
  else
    let judges := validJudges llm problem evaluators solution
    if judges.isEmpty then .ok none
    else do
      let totalScoreSum ← pyScoreSum judges
      let aggregatedScore := pyRound totalScoreSum judges.length
      .ok (some (.vdict
        [("solution", solution),
         ("evaluation", .vdict
           [("total_score", .vint aggregatedScore),
            ("strengths", .vstr (aggField "strengths" judges)),
            ("weaknesses", .vstr (aggField "weaknesses" judges)),
            ("overall_comment", .vstr (aggField "overall_comment" judges)),
            ("individual_evals", .vlist judges)])]))

/-- The `for solution in solutions` loop of `_evaluate_solutions`, collecting
the aggregated entries in order. -/
def collectEvaluated (llm : String → PyVal) (problem : String) (evaluators : List PyVal) :
    List PyVal → Except String (List PyVal)
  | [] => .ok []
  | s :: rest => do
    let r ← aggregateOne llm problem evaluators s
    let t ← collectEvaluated llm problem evaluators rest
    .ok (r.toList ++ t)

/-- The sort key of `_evaluate_solutions`' final sort:
`x.get("evaluation", \x7b\x7d).get("total_score", 0)`.  Entries built by the
solver always store an integer there; a non-numeric stored value (which
Python's comparison would choke on) never occurs and is read as `0`. -/
def entryScore (x : PyVal) : Int :=
  match pyGetD (pyGetD x "evaluation" (.vdict [])) "total_score" (.vint 0) with
  | .vint n => n
  | .vbool b => if b then 1 else 0
  | _ => 0

/-- `EvoGenSolver._evaluate_solutions` (final value of the generator): the
aggregated entries sorted descending by `total_score`.  `ctx` is the
`evaluators` context; a non-list or empty context yields `[]`. -/
def evaluateSolutions (llm : String → PyVal) (solutions : List PyVal) (problem : String)
    (ctx : PyVal) : Except String (List PyVal) :=
  match ctx with
  | .vlist evaluators =>
    if evaluators.isEmpty then .ok []
    else if solutions.isEmpty then .ok []
    else do
      let entries ← collectEvaluated llm problem evaluators solutions
      .ok (sortDesc entryScore entries)
  | _ => .ok []

/-- `num_elites = max(1, int(len(evaluated_solutions) * 0.4))`: for the
population sizes the program produces (n ≤ 10) the float product `n * 0.4`
truncates to exactly `⌊2n/5⌋`. -/
def numElites (n : Nat) : Nat := max 1 (2 * n / 5)

/-- `elite_solutions = evaluated_solutions[:num_elites]`. -/
def eliteSolutions (evaluated : List PyVal) : List PyVal :=
  evaluated.take (numElites evaluated.length)

/-- `failed_solutions = evaluated_solutions[num_elites:]`. -/
def failedSolutions (evaluated : List PyVal) : List PyVal :=
  evaluated.drop (numElites evaluated.length)

/-- `existing_roles = [a.get('role', 'N/A') for a in solver_agent_list]`. -/
def existingRoles (agents : List PyVal) : List PyVal :=
  agents.map (fun a => pyGetD a "role" (.vstr "N/A"))

/-- The prompt built by iteration `i` of `_generate_next_generation`'s loop:
`draws i` is that iteration's `random.random()` draw and `picks i` selects
the `random.choice` index (uniform over the roster). -/
def nextGenPrompt (draws : Nat → ℚ) (picks : Nat → Nat) (evaluated : List PyVal)
    (problem : String) (agents : List PyVal) (i : Nat) : String :=
  if draws i < 0.20 then
    getRevolutionaryGenerationPrompt problem 1 (existingRoles agents)
  else
    getNextGenerationPrompt (eliteSolutions evaluated) (failedSolutions evaluated) problem 1
      (agents.getD (picks i % agents.length) (.vdict []))

/-- The shape check applied to each generation response:
`isinstance(response, dict) and "solutions" in response and isinstance(response["solutions"], list) and len(...) > 0`,
returning `response["solutions"][0]`. -/
def extractFirstSolution (resp : PyVal) : Option PyVal :=
  match resp with
  | .vdict _ =>
    match pyGetD resp "solutions" .vnone with
    | .vlist (s :: _) => some s
    | _ => none
  | _ => none

/-- `EvoGenSolver._generate_next_generation`: `numSolutions` independent
single-proposal calls, each picking the mutation or recombination branch by
its own draw; malformed responses are skipped. -/
def generateNextGeneration (llm : String → PyVal) (draws : Nat → ℚ) (picks : Nat → Nat)
    (evaluated : List PyVal) (problem : String) (ctx : PyVal) (numSolutions : Nat) :
    List PyVal :=
  match ctx with
  | .vlist agents =>
    if agents.isEmpty then []
    else
      (List.range numSolutions).filterMap (fun i =>
        extractFirstSolution (llm (nextGenPrompt draws picks evaluated problem agents i)))
  | _ => []

/-- `EvoGenSolver._generate_initial_solutions`, instrumented with the list of
prompts sent (second component): one single-proposal call per solver agent,
in roster order, skipping malformed responses. -/
def generateInitialSolutions (llm : String → PyVal) (problem : String) (ctx : PyVal) :
    List PyVal × List String :=
  match ctx with
  | .vlist agents =>
    if agents.isEmpty then ([], [])
    else
      let prompts := agents.map (fun a => getInitialGenerationPrompt problem 1 a)
      (prompts.filterMap (fun p => extractFirstSolution (llm p)), prompts)
  | _ => ([], [])

/-- The persona-roster validation of `EvoGenSolver.solve` (v16 variant):
truthy, no gateway-failure `error` key, and presence of the
`solver_agents`, `evaluators` and `output_labels` keys.  No count of solver
or evaluator personas is checked. -/
def personasValid (v : PyVal) : Bool :=
  pyTruthy v && !(hasKeyB v "error") && hasKeyB v "solver_agents" && hasKeyB v "evaluators"
    && hasKeyB v "output_labels"

/-- One generation record appended to `self.history`:
`{"generation": i, "results": evaluated_solutions}`. -/
structure GenRecord where
  generation : Nat
  results : List PyVal
deriving Inhabited

/-- The `for i in range(1, generations)` evolution cycle of
`EvoGenSolver.solve_internal`; the first argument of the recursion is the
remaining number of loop iterations (`generations - i`). -/
def evolveLoop (llm : String → PyVal) (draws : Nat → Nat → ℚ) (picks : Nat → Nat → Nat)
    (numSolutions : Nat) (problem : String) (personas : PyVal) :
    Nat → Nat → List GenRecord → Except String (List GenRecord)
  | 0, _, hist => .ok hist
  | fuel + 1, i, hist =>
    let prev := ((hist.getLast?).map GenRecord.results).getD []
    if prev.isEmpty then .ok hist
    else
      let sols := generateNextGeneration llm (draws i) (picks i) prev problem
        (pyGetD personas "solver_agents" (.vlist [])) numSolutions
      if sols.isEmpty then .ok hist
      else do
        let evaluated ← evaluateSolutions llm sols problem (pyGetD personas "evaluators" (.vlist []))
        if evaluated.isEmpty then .ok hist
        else
          evolveLoop llm draws picks numSolutions problem personas fuel (i + 1) (hist ++ [GenRecord.mk i evaluated])

/-- `EvoGenSolver.solve_internal`: seed generation 0, evaluate it, then run
the evolution cycle; the result is the final `self.history`.  `draws i`/
`picks i` are the random draws consumed by generation `i`'s evolution step. -/
def solveInternal (llm : String → PyVal) (draws : Nat → Nat → ℚ) (picks : Nat → Nat → Nat)
    (numSolutions : Nat) (problem : String) (personas : PyVal) (generations : Nat) :
    Except String (List GenRecord) :=
  let solutions := (generateInitialSolutions llm problem (pyGetD personas "solver_agents" (.vlist []))).1
  if solutions.isEmpty then .ok []
  else do
    let evaluated ← evaluateSolutions llm solutions problem (pyGetD personas "evaluators" (.vlist []))
    if evaluated.isEmpty then .ok []
    else
      evolveLoop llm draws picks numSolutions problem personas (generations - 1) 1 [GenRecord.mk 0 evaluated]

/-- `EvoGenSolver.solve` (v16 variant): persona synthesis followed by
`solve_internal`; an invalid persona roster aborts with an empty history. -/
def solve (llm : String → PyVal) (draws : Nat → Nat → ℚ) (picks : Nat → Nat → Nat)
    (numSolutions : Nat) (problem : String) (generations : Nat) :
    Except String (List GenRecord) :=
  let personas := llm (getAgentPersonasPrompt problem)
  if personasValid personas then
    solveInternal llm draws picks numSolutions problem personas generations
  else .ok []

/-- Python `a or b` on values. -/
def pyOr (a b : PyVal) : PyVal := if pyTruthy a then a else b

/-- The `content_blocks` entries appended for one search result by
`_format_raw_content_for_llm`; `.error` models the exceptions Python would
raise on a non-dict result or on slicing a truthy non-string `raw_content`
(neither is produced by the Tavily gateway). -/
def contentBlocksFor (contextTag : String) (truncateChars : Nat) (i : Nat) (r : PyVal) :
    Except String (List String) :=
  match r with
  | .vdict _ =>
    let url := pyStr (pyGetD r "url" (.vstr "Unknown URL"))
    let title := pyStr (pyGetD r "title" (.vstr "No Title"))
    let startBlock := "--- START " ++ contextTag ++ " SOURCE " ++ toString (i + 1) ++ " (" ++ title ++ ") ---\n"
    let urlBlock := "URL: " ++ url ++ "\n"
    let endBlock := "--- END " ++ contextTag ++ " SOURCE " ++ toString (i + 1) ++ " ---\n"
    let snippetBlock :=
      "CONTENT: (No raw content available, using snippet)\n"
        ++ pyStr (pyOr (pyGetD r "snippet" (.vstr "")) (pyGetD r "description" (.vstr ""))) ++ "\n"
    match pyGetD r "raw_content" .vnone with
    | .vstr s =>
      if s.isEmpty then .ok [startBlock, urlBlock, snippetBlock, endBlock]
      else .ok [startBlock, urlBlock,
        "CONTENT (first " ++ toString truncateChars ++ " chars):\n"
          ++ String.mk (s.data.take truncateChars) ++ "\n", endBlock]
    | v =>
      if pyTruthy v then .error "TypeError: raw_content is not sliceable"
      else .ok [startBlock, urlBlock, snippetBlock, endBlock]
  | _ => .error "AttributeError: result has no attribute get"

/-- `EvoGenSolver_Tavily._format_raw_content_for_llm`. -/
def formatRawContent (results : List PyVal) (contextTag : String) (maxItems truncateChars : Nat) :
    Except String String :=
  match results with
  | [] => .ok ("(" ++ contextTag ++ ": No content found.)\n")
  | _ => do
    let blocks ← (results.take maxItems).enum.mapM
      (fun p => contentBlocksFor contextTag truncateChars p.1 p.2)
    .ok (pyJoin "\n" blocks.flatten)

/-- The deep-analysis prompt built inside
`_summarize_multi_phase_results_with_llm`. -/
def getMultiPhaseSummaryPrompt (problemStatement analysisContentText solutionContentText : String) : String :=
  "
        # 役割
        あなたは、第一線のリサーチ戦略家です。あなたの仕事は、大量の調査資料（Webページの全文）を読み解き、
        単なる要約ではなく、「戦略的な洞察」を抽出することです。

        # 元の課題
        " ++ problemStatement ++ "

        # 調査資料 1: 現状・背景分析 (Webページ全文)
        " ++ (if analysisContentText.isEmpty then "なし" else analysisContentText) ++ "

        # 調査資料 2: 解決策の事例・技術 (Webページ全文)
        " ++ (if solutionContentText.isEmpty then "なし" else solutionContentText) ++ "

        # タスク
        あなたは今、上記の「調査資料1」と「調査資料2」の*全文*（またはその冒頭）を読み終えました。
        これらの詳細な情報に基づき、元の課題をより深く、より具体的に補強するための分析を行ってください。
        **スニペット（抜粋）ではなく、提供された全文コンテンツを深く分析してください。**

        # 出力形式 (JSON)
        分析結果を以下のJSON形式で出力してください。
        \x7b
          \"summary_analysis\": \"「調査資料1（現状・背景）」を深く分析した*戦略的洞察*。単なる要約ではなく、課題の背景にある重要な文脈や制約を指摘する。(1〜3文)\",
          \"summary_solution\": \"「調査資料2（解決策・事例）」から抽出した*重要な傾向*。他社の事例や新技術から学べる、課題解決のヒントを指摘する。(1〜3文)\",
          \"key_points\": [
            \"「調査資料1（現状・背景）」においてその他、考慮するべきと思われる複数の観点に関する簡潔な1文を10個程度作成する\",
            \"「調査資料2（解決策・事例）」においてその他、考慮するべきと思われる数の観点に関する簡潔な1文を10個程度作成する\",
          ]
        \x7d
        "

/-- The `composed` augmented-problem text built inside the `try` block of
`_summarize_multi_phase_results_with_llm`; `none` models the exceptions the
`except ... pass` swallows (non-list `key_points`, non-dict `top_sources`
entries), which fall through to the fallback text. -/
def buildComposed (llmRet : PyVal) (problemStatement : String) : Option String := do
  let summaryAnalysisText := pyStr (pyGetD llmRet "summary_analysis" (.vstr "現状分析の要約なし"))
  let summarySolutionText := pyStr (pyGetD llmRet "summary_solution" (.vstr "解決策事例の要約なし"))
  let kp ← (match pyGetD llmRet "key_points" (.vlist []) with
    | .vlist l => some l
    | _ => none)
  let topText ← (match pyGetD llmRet "top_sources" (.vlist []) with
    | .vlist ss => Option.map (pyJoin "\n") (ss.mapM (fun s =>
        match s with
        | PyVal.vdict _ => some ("- " ++ pyStr (pyGetD s "title" (.vstr "")) ++ ": "
            ++ pyStr (pyGetD s "url" (.vstr "")))
        | _ => (none : Option String)))
    | _ => some "")
  some ("\n## Tavilyリサーチ要約（LLMによる詳細分析）\n### 現状・背景分析 (戦略的洞察)\n"
    ++ summaryAnalysisText ++ "\n### 解決策・事例 (重要な傾向)\n" ++ summarySolutionText
    ++ "\n\n### 抽出された重要点\n" ++ pyJoin "\n" (kp.map (fun p => "- " ++ pyStr p))
    ++ "\n\n" ++ "### 主な出典\n" ++ topText ++ "\n\n" ++ "--- (以下、元の課題文) ---\n"
    ++ problemStatement)

/-- The v13-compatible fallback text of
`_summarize_multi_phase_results_with_llm` (built outside the `try`, so a
non-dict search result raises). -/
def fallbackText (analysisResults solutionResults : List PyVal) (problemStatement : String) :
    Except String String := do
  let aLines ← (analysisResults.take 2).mapM (fun r =>
    match r with
    | .vdict _ => Except.ok ("- [分析] " ++ pyStr (pyGetD r "title" (.vstr "No title")) ++ " ("
        ++ pyStr (pyGetD r "url" (.vstr "")) ++ ")")
    | _ => Except.error "AttributeError: result has no attribute get")
  let sLines ← (solutionResults.take 2).mapM (fun r =>
    match r with
    | .vdict _ => Except.ok ("- [解決策] " ++ pyStr (pyGetD r "title" (.vstr "No title")) ++ " ("
        ++ pyStr (pyGetD r "url" (.vstr "")) ++ ")")
    | _ => Except.error "AttributeError: result has no attribute get")
  .ok ("## Tavilyリサーチ要約（フォールバック）\n" ++ "最新のウェブ情報を参照しました。上位出典:\n"
    ++ pyJoin "\n" (aLines ++ sLines) ++ "\n\n" ++ "--- (以下、元の課題文) ---\n" ++ problemStatement)

/-- `EvoGenSolver_Tavily._summarize_multi_phase_results_with_llm`: returns
the problem statement unchanged when both result lists are empty, otherwise
the LLM digest (or the fallback text when the digest is unusable). -/
def summarizeMultiPhase (llm : String → PyVal) (problemStatement : String)
    (analysisResults solutionResults : List PyVal) : Except String String :=
  if analysisResults.isEmpty ∧ solutionResults.isEmpty then .ok problemStatement
  else do
    let analysisContentText ← formatRawContent analysisResults "ANALYSIS CONTENT" 3 4000
    let solutionContentText ← formatRawContent solutionResults "SOLUTION CONTENT" 3 4000
    let llmRet := llm (getMultiPhaseSummaryPrompt problemStatement analysisContentText solutionContentText)
    if isDictB llmRet && (hasKeyB llmRet "summary_analysis" || hasKeyB llmRet "summary_solution"
        || hasKeyB llmRet "key_points") then
      match buildComposed llmRet problemStatement with
      | some s => .ok s
      | none => fallbackText analysisResults solutionResults problemStatement
    else fallbackText analysisResults solutionResults problemStatement

/-- The query loop of the augmentation phase (and of the per-agent research
phase): for each string query with non-empty `strip()`, call the Search
Gateway and extend the collected list with the `results` value of any dict
response that carries one; error responses (no `results` key) and non-dict
responses contribute nothing.  Malformed query collections (non-list, or
non-string entries) are modelled as the exception Python would raise. -/
def gatherResults (search : String → PyVal) (queries : PyVal) : Except String (List PyVal) :=
  match queries with
  | .vlist qs =>
    qs.foldlM (fun acc q =>
      match q with
      | .vstr s =>
        if s.trim.isEmpty then .ok acc
        else
          let resp := search s
          match resp with
          | .vdict _ =>
            if hasKeyB resp "results" then
              match pyGetD resp "results" .vnone with
              | .vlist rs => .ok (acc ++ rs)
              | _ => .error "TypeError: extend argument is not iterable"
            else .ok acc
          | _ => .ok acc
      | _ => .error "AttributeError: query has no attribute strip") []
  | _ => .error "TypeError: queries is not iterable"

/-- The problem-augmentation step of `EvoGenSolver_Tavily.solve` (its lines
up to `yield {"augmented_problem": ...}`): the augmented problem statement,
starting from the original and only replaced when query generation
succeeded and the digest call completed (the `try/except` around the digest
keeps the original on an exception). -/
def computeAugmentedProblem (llm : String → PyVal) (search : String → PyVal) (problem : String) :
    Except String String :=
  let queryResponse := llm (getTavilyMultiPhaseQueryPrompt problem)
  if !(isDictB queryResponse)
      || (!(hasKeyB queryResponse "analysis_queries") && !(hasKeyB queryResponse "solution_queries")) then
    .ok problem
  else do
    let analysisQueries := pyGetD queryResponse "analysis_queries" (.vlist [])
    let solutionQueries := pyGetD queryResponse "solution_queries" (.vlist [])
    let analysisResultsList ← if pyTruthy analysisQueries then gatherResults search analysisQueries else .ok []
    let solutionResultsList ← if pyTruthy solutionQueries then gatherResults search solutionQueries else .ok []
    match summarizeMultiPhase llm problem analysisResultsList solutionResultsList with
    | .ok s => .ok s
    | .error _ => .ok problem

/-- The loop body of `_run_agent_specific_research` for one solver agent:
search the agent's batched queries, analyse the full text, and inject
`agent_research_insights`; the agent passes through unchanged when it has
no queries or no search results. -/
def agentResearchOne (llm : String → PyVal) (search : String → PyVal) (problem : String)
    (resultsPerAgentQuery : Nat) (allQueries : PyVal) (i : Nat) (agent : PyVal) :
    Except String PyVal :=
  match agent with
  | .vdict _ => do
    let role := pyGetD agent "role" (.vstr "不明な役割")
    let instructions := pyGetD agent "instructions" (.vstr "")
    let queries ← (match allQueries with
      | .vdict _ => Except.ok (match role with
        | .vstr s => pyGetD allQueries s (.vlist [])
        | _ => .vlist [])
      | _ => Except.error "AttributeError: queries dict has no attribute get")
    if !(pyTruthy queries) then .ok agent
    else do
      let agentSearchResults ← gatherResults search queries
      if agentSearchResults.isEmpty then .ok agent
      else do
        let rawContentText ← formatRawContent agentSearchResults
          ("AGENT " ++ toString (i + 1) ++ " RESEARCH") (resultsPerAgentQuery * 2) 3000
        let analysisResponse := llm (getAgentSpecificAnalysisPrompt problem (pyStr role)
          (pyStr instructions) rawContentText)
        let insights := (match analysisResponse with
          | .vdict _ => (match pyGetD analysisResponse "key_insights" .vnone with
            | .vlist l => l
            | _ => [])
          | _ => [])
        .ok (dictSet agent "agent_research_insights" (.vlist insights))
  | _ => .error "AttributeError: agent has no attribute get"

/-- `EvoGenSolver_Tavily._run_agent_specific_research` (v16.0 batched
variant): one batched query-generation call, then per-agent search and
analysis; a failed batch call returns the roster unchanged. -/
def runAgentResearch (llm : String → PyVal) (search : String → PyVal) (problem : String)
    (resultsPerAgentQuery : Nat) (agentsVal : PyVal) : Except String (List PyVal) :=
  match agentsVal with
  | .vlist [] => .ok []
  | .vlist agents =>
    let resp := llm (getAllAgentQueriesPrompt problem agents)
    if !(isDictB resp && hasKeyB resp "agent_queries") then .ok agents
    else
      let allQueries := pyGetD resp "agent_queries" (.vdict [])
      agents.enum.mapM (fun p => agentResearchOne llm search problem resultsPerAgentQuery allQueries p.1 p.2)
  | v => if pyTruthy v then .error "TypeError: solver agents are not iterable" else .ok []

/-- `EvoGenSolver_Tavily.solve` from the persona-synthesis step onward
(everything after the `yield {"augmented_problem": ...}` event), applied to
an already-computed augmented problem statement. -/
def solveTavilyFrom (llm : String → PyVal) (search : String → PyVal) (draws : Nat → Nat → ℚ)
    (picks : Nat → Nat → Nat) (numSolutions resultsPerAgentQuery generations : Nat)
    (augmentedProblem : String) : Except String (List GenRecord) :=
  let personas := llm (getAgentPersonasPrompt augmentedProblem)
  if !(personasValid personas) then .ok []
  else do
    let updatedAgentsList ← runAgentResearch llm search augmentedProblem resultsPerAgentQuery
      (pyGetD personas "solver_agents" (.vlist []))
    let finalAgents := if updatedAgentsList.isEmpty then pyGetD personas "solver_agents" (.vlist [])
      else PyVal.vlist updatedAgentsList
    let personas2 := dictSet personas "solver_agents" finalAgents
    solveInternal llm draws picks numSolutions augmentedProblem personas2 generations

/-- `EvoGenSolver_Tavily.solve`: problem augmentation, then the common
pipeline on the augmented problem. -/
def solveTavily (llm : String → PyVal) (search : String → PyVal) (draws : Nat → Nat → ℚ)
    (picks : Nat → Nat → Nat) (numSolutions resultsPerAgentQuery generations : Nat)
    (problem : String) : Except String (List GenRecord) := do
  let augmentedProblem ← computeAugmentedProblem llm search problem
  solveTavilyFrom llm search draws picks numSolutions resultsPerAgentQuery generations augmentedProblem

/-- The filter of the final-ranking list comprehension:
`item.get("evaluation") and "total_score" in item["evaluation"]`. -/
def historyFilter (item : PyVal) : Bool :=
  pyTruthy (pyGetD item "evaluation" .vnone) && hasKeyB (pyGetD item "evaluation" .vnone) "total_score"

/-- `all_solutions`: the flattened concatenation of every generation record's
`results`, filtered to entries carrying a `total_score`. -/
def allSolutions (history : List GenRecord) : List PyVal :=
  (history.map (fun g => g.results.filter historyFilter)).flatten

/-- `top_5_solutions = sorted(all_solutions, key=..., reverse=True)[:5]`. -/
def top5Solutions (history : List GenRecord) : List PyVal :=
  (sortDesc entryScore (allSolutions history)).take 5

/-- Specification-side definition, following the spec's words: the Scored
Proposal with the maximum `total_score` over a flattened results list, the
first-seen one winning ties. -/
def firstMaxBy (k : PyVal → Int) : List PyVal → Option PyVal
  | [] => none
  | a :: t => some (t.foldl (fun b x => if k b < k x then x else b) a)

/-- String infix, via the underlying character lists. -/
def strInfix (a b : String) : Prop := a.data <:+: b.data

/-- A Search Gateway response that carries a `results` key (the success
shape); error responses (`\x7b"error": ...\x7d`) do not. -/
def hasResultsB (v : PyVal) : Bool := isDictB v && hasKeyB v "results"

/-- A well-formed query collection: a list of strings (the shape the query
generation prompt requests). -/
def isStrList : PyVal → Bool
  | .vlist l => l.all (fun x => match x with | .vstr _ => true | _ => false)
  | _ => false

/-- The well-formedness an oracle response must satisfy for the claimed
score range: whenever it would pass the judge validity check, its
`total_score` is an integer in `[0, 100]` (what the evaluation prompt
requests). -/
def scoreOkB (v : PyVal) : Bool :=
  if isValidEvaluation v then
    match pyGetD v "total_score" (.vint 0) with
    | .vint n => decide (0 ≤ n) && decide (n ≤ 100)
    | _ => false
  else true

/-- A concrete solver persona used by the concrete runs below. -/
def agentA : PyVal := .vdict [("role", .vstr "役割A"), ("instructions", .vstr "指示A")]

/-- A second concrete solver persona. -/
def agentB : PyVal := .vdict [("role", .vstr "役割B"), ("instructions", .vstr "指示B")]

/-- A concrete evaluator persona. -/
def evalA : PyVal := .vdict [("role", .vstr "評価者A"), ("evaluation_guideline", .vstr "指針A")]

/-- A concrete well-formed proposal. -/
def solA : PyVal := .vdict [("proposal_main", .vstr "案A"), ("proposal_details", .vstr "詳細A")]

/-- A constant oracle whose single response passes every shape check of the
pipeline at once: a valid persona roster (of 2 solver and 1 evaluator
personas), a valid single-proposal generation response, and a valid judge
response with score 80. -/
def llmGood : String → PyVal := fun _ => .vdict
  [("solver_agents", .vlist [agentA, agentB]),
   ("evaluators", .vlist [evalA]),
   ("output_labels", .vdict [("main_label", .vstr "提案"), ("details_label", .vstr "詳細")]),
   ("solutions", .vlist [solA]),
   ("total_score", .vint 80)]

/-- Like `llmGood` but the judge score is 150, outside `[0, 100]`. -/
def llmBad : String → PyVal := fun _ => .vdict
  [("solver_agents", .vlist [agentA]),
   ("evaluators", .vlist [evalA]),
   ("output_labels", .vdict [("main_label", .vstr "提案"), ("details_label", .vstr "詳細")]),
   ("solutions", .vlist [solA]),
   ("total_score", .vint 150)]

/-- An oracle whose judge response carries a string `total_score`: it passes
the validity check (a dict with a `total_score` key and no `error` key) yet
its score is not a number. -/
def llmStrScore : String → PyVal := fun _ => .vdict [("total_score", .vstr "85")]

/-- An oracle returning the Model Gateway's own parse-failure sentinel: it
lacks the persona keys, so persona synthesis must abort. -/
def llmNoPersonas : String → PyVal := fun _ =>
  .vdict [("raw_text", .vstr "出力"), ("parse_error", .vstr "Retry failed: bad")]

/-- A search oracle that always returns the Tavily error shape. -/
def searchErr : String → PyVal := fun _ => .vdict [("error", .vstr "HTTP error: boom")]

/-- A constant generation backend emitting a bracketed but unparsable text. -/
def genW : String → GenOut := fun _ => .text "a[b]"

/-- A parser oracle that always fails. -/
def parseW : String → Except String PyVal := fun _ => .error "bad"

/-- A per-generation draw stream that always takes the mutation branch. -/
def drawsM : Nat → ℚ := fun _ => 1 / 10

/-- A per-generation draw stream that always takes the recombination branch. -/
def drawsR : Nat → ℚ := fun _ => 1 / 2

/-- A pick stream that always selects index 0. -/
def picksW : Nat → Nat := fun _ => 0

/-- A run-level draw stream (recombination every iteration). -/
def draws0 : Nat → Nat → ℚ := fun _ _ => 1 / 2

/-- A run-level pick stream. -/
def picks0 : Nat → Nat → Nat := fun _ _ => 0

/-- A concrete scored entry (score 80). -/
def entryW1 : PyVal := .vdict
  [("solution", .vdict [("proposal_main", .vstr "案1")]),
   ("evaluation", .vdict [("total_score", .vint 80), ("weaknesses", .vstr "弱点1")])]

/-- A concrete scored entry (score 40). -/
def entryW2 : PyVal := .vdict
  [("solution", .vdict [("proposal_main", .vstr "案2")]),
   ("evaluation", .vdict [("total_score", .vint 40), ("weaknesses", .vstr "弱点2")])]

/-- A concrete sorted results list of length 2. -/
def evaluatedW : List PyVal := [entryW1, entryW2]

/-- The generation-0 results of the concrete `llmGood` run (used to apply
the history theorems at a computed record). -/
def resultsGood : List PyVal :=
  ((evaluateSolutions llmGood [solA, solA] "課題" (.vlist [evalA])).toOption).getD []

/-- The history of the concrete `llmGood` run (2 generations, population 3). -/
def histGood : List GenRecord :=
  ((solveInternal llmGood draws0 picks0 3 "課題" (llmGood "任意") 2).toOption).getD []

/-- An oracle that answers the research-query prompt with one analysis and
one solution query (and nothing else). -/
def llmQueries : String → PyVal := fun _ => .vdict
  [("analysis_queries", .vlist [.vstr "現状クエリ"]),
   ("solution_queries", .vlist [.vstr "解決策クエリ"])]

/-- The length of a list value (`len`), 0 on non-lists. -/
def pyListLen : PyVal → Nat
  | .vlist l => l.length
  | _ => 0

/-- A concrete two-record history for the final-ranking witness. -/
def histW : List GenRecord := [GenRecord.mk 0 [entryW2], GenRecord.mk 1 [entryW1]]

/-- Appending on the left preserves string infixes. -/
theorem strInfix_appendL {x b : String} (a : String) (h : strInfix x b) : strInfix x (a ++ b) := by
  obtain ⟨s, t, hst⟩ := h
  refine ⟨a.data ++ s, t, ?_⟩
  rw [String.data_append, ← hst]
  simp [List.append_assoc]

/-- Appending on the right preserves string infixes. -/
theorem strInfix_appendR {x a : String} (b : String) (h : strInfix x a) : strInfix x (a ++ b) := by
  obtain ⟨s, t, hst⟩ := h
  refine ⟨s, t ++ b.data, ?_⟩
  rw [String.data_append, ← hst]
  simp [List.append_assoc]

/-- Every string is an infix of itself. -/
theorem strInfix_refl (a : String) : strInfix a a := List.infix_refl _

/-- Every member of a joined list is an infix of the join. -/
theorem mem_pyJoin_infix {x : String} (sep : String) :
    ∀ (l : List String), x ∈ l → strInfix x (pyJoin sep l) := by
  intro l
  induction l with
  | nil => intro h; cases h
  | cons y ys ih =>
    intro h
    cases ys with
    | nil =>
      rcases List.mem_singleton.mp h with rfl
      exact strInfix_refl x
    | cons z zs =>
      rcases List.mem_cons.mp h with rfl | h2
      · exact strInfix_appendR _ (strInfix_appendR _ (strInfix_refl x))
      · exact strInfix_appendL _ (ih h2)

/-- Folding the running-maximum step over `c :: t` from seed `a` keeps `a`
unless the running maximum of `c :: t` strictly beats it. -/
theorem foldl_max_cons (k : PyVal → Int) (t : List PyVal) :
    ∀ (a c : PyVal),
      List.foldl (fun b x => if k b < k x then x else b) a (c :: t)
        = if k a < k (List.foldl (fun b x => if k b < k x then x else b) c t)
          then List.foldl (fun b x => if k b < k x then x else b) c t else a := by
  induction t with
  | nil =>
    intro a c
    simp only [List.foldl_cons, List.foldl_nil]
  | cons d t'' ih =>
    intro a c
    rw [List.foldl_cons, ih ((fun b x => if k b < k x then x else b) a c) d, ih c d]
    simp only
    by_cases h1 : k a < k c <;> simp only [h1, if_true, if_false, ite_true, ite_false] <;>
      split_ifs <;> first | rfl | omega

/-- The seed is returned or a list member is. -/
theorem foldl_max_mem (k : PyVal → Int) :
    ∀ (t : List PyVal) (a : PyVal),
      List.foldl (fun b x => if k b < k x then x else b) a t = a
        ∨ List.foldl (fun b x => if k b < k x then x else b) a t ∈ t := by
  intro t
  induction t with
  | nil => intro a; left; rfl
  | cons c t'' ih =>
    intro a
    rw [List.foldl_cons]
    rcases ih ((fun b x => if k b < k x then x else b) a c) with h | h
    · rw [h]
      by_cases hc : k a < k c
      · right; simp [hc]
      · left; simp [hc]
    · right; exact List.mem_cons_of_mem _ h

/-- The fold result dominates the seed and every member. -/
theorem foldl_max_ge (k : PyVal → Int) :
    ∀ (t : List PyVal) (a : PyVal),
      k a ≤ k (List.foldl (fun b x => if k b < k x then x else b) a t)
        ∧ ∀ x ∈ t, k x ≤ k (List.foldl (fun b x => if k b < k x then x else b) a t) := by
  intro t
  induction t with
  | nil => intro a; exact ⟨le_refl _, by intro x hx; cases hx⟩
  | cons c t'' ih =>
    intro a
    rw [List.foldl_cons]
    obtain ⟨h1, h2⟩ := ih ((fun b x => if k b < k x then x else b) a c)
    have hstep : k a ≤ k ((fun b x => if k b < k x then x else b) a c)
        ∧ k c ≤ k ((fun b x => if k b < k x then x else b) a c) := by
      by_cases hc : k a < k c <;> simp [hc] <;> omega
    refine ⟨le_trans hstep.1 h1, ?_⟩
    intro x hx
    rcases List.mem_cons.mp hx with rfl | hx2
    · exact le_trans hstep.2 h1
    · exact h2 x hx2

/-- First-seen property of the fold: either the seed survives, or the result
is a member strictly beating the seed and everything before its first
occurrence. -/
theorem foldl_max_first (k : PyVal → Int) :
    ∀ (t : List PyVal) (a : PyVal),
      List.foldl (fun b x => if k b < k x then x else b) a t = a
        ∨ ∃ pre post, t = pre ++ List.foldl (fun b x => if k b < k x then x else b) a t :: post
            ∧ k a < k (List.foldl (fun b x => if k b < k x then x else b) a t)
            ∧ ∀ x ∈ pre, k x < k (List.foldl (fun b x => if k b < k x then x else b) a t) := by
  intro t
  induction t with
  | nil => intro a; left; rfl
  | cons c t'' ih =>
    intro a
    rw [List.foldl_cons]
    by_cases hc : k a < k c
    · simp only [if_pos hc]
      rcases ih c with h | h
      · rw [h]
        right
        exact ⟨[], t'', rfl, hc, by intro x hx; cases hx⟩
      · obtain ⟨pre, post, hsplit, hgt, hpre⟩ := h
        right
        refine ⟨c :: pre, post, ?_, lt_trans hc hgt, ?_⟩
        · rw [List.cons_append]; exact congrArg (List.cons c) hsplit
        · intro x hx
          rcases List.mem_cons.mp hx with rfl | hx2
          · exact hgt
          · exact hpre x hx2
    · simp only [if_neg hc]
      rcases ih a with h | h
      · rw [h]; left; rfl
      · obtain ⟨pre, post, hsplit, hgt, hpre⟩ := h
        right
        refine ⟨c :: pre, post, ?_, hgt, ?_⟩
        · rw [List.cons_append]; exact congrArg (List.cons c) hsplit
        · intro x hx
          rcases List.mem_cons.mp hx with rfl | hx2
          · omega
          · exact hpre x hx2

/-- `firstMaxBy` on a cons is the running-maximum fold. -/
theorem firstMaxBy_cons (k : PyVal → Int) (a : PyVal) (t : List PyVal) :
    firstMaxBy k (a :: t) = some (List.foldl (fun b x => if k b < k x then x else b) a t) := rfl

/-- The head of a descending insertion. -/
theorem insertDesc_head (k : PyVal → Int) (a : PyVal) :
    ∀ (s : List PyVal),
      (insertDesc k a s).head? = some (match s with
        | [] => a
        | b :: _ => if k b ≤ k a then a else b) := by
  intro s
  cases s with
  | nil => rfl
  | cons b t => by_cases h : k b ≤ k a <;> simp [insertDesc, h]

/-- The head of the stable descending sort is the first-seen maximum. -/
theorem sortDesc_head (k : PyVal → Int) :
    ∀ (l : List PyVal), (sortDesc k l).head? = firstMaxBy k l := by
  intro l
  induction l with
  | nil => rfl
  | cons a t ih =>
    cases t with
    | nil => rfl
    | cons c t' =>
      show (insertDesc k a (sortDesc k (c :: t'))).head? = firstMaxBy k (a :: c :: t')
      rw [firstMaxBy_cons, foldl_max_cons]
      cases hs : sortDesc k (c :: t') with
      | nil =>
        rw [hs] at ih
        rw [firstMaxBy_cons] at ih
        cases ih
      | cons m rest =>
        rw [hs] at ih
        rw [firstMaxBy_cons] at ih
        have hm : m = List.foldl (fun b x => if k b < k x then x else b) c t' := by
          simpa using ih
        rw [insertDesc_head]
        simp only [← hm]
        by_cases h : k m ≤ k a
        · rw [if_pos h, if_neg (by omega)]
        · rw [if_neg h, if_pos (by omega)]

/-- `insertDesc` permutes the cons. -/
theorem insertDesc_perm (k : PyVal → Int) (a : PyVal) :
    ∀ (s : List PyVal), (insertDesc k a s).Perm (a :: s) := by
  intro s
  induction s with
  | nil => exact List.Perm.refl _
  | cons b t ih =>
    by_cases h : k b ≤ k a
    · simp [insertDesc, h]
    · simp only [insertDesc, if_neg h]
      exact (List.Perm.cons b ih).trans (List.Perm.swap a b t)

/-- `sortDesc` is a permutation. -/
theorem sortDesc_perm (k : PyVal → Int) :
    ∀ (l : List PyVal), (sortDesc k l).Perm l := by
  intro l
  induction l with
  | nil => exact List.Perm.refl _
  | cons a t ih =>
    exact (insertDesc_perm k a (sortDesc k t)).trans (List.Perm.cons _ ih)

/-- Members of a descending insertion. -/
theorem mem_insertDesc {k : PyVal → Int} {a x : PyVal} {s : List PyVal} :
    x ∈ insertDesc k a s ↔ x = a ∨ x ∈ s := by
  rw [(insertDesc_perm k a s).mem_iff, List.mem_cons]

/-- `insertDesc` preserves descending sortedness. -/
theorem insertDesc_pairwise (k : PyVal → Int) (a : PyVal) :
    ∀ {s : List PyVal}, List.Pairwise (fun x y => k y ≤ k x) s →
      List.Pairwise (fun x y => k y ≤ k x) (insertDesc k a s) := by
  intro s
  induction s with
  | nil => intro _; simp [insertDesc]
  | cons b t ih =>
    intro hp
    obtain ⟨hb, ht⟩ := List.pairwise_cons.mp hp
    by_cases h : k b ≤ k a
    · simp only [insertDesc, if_pos h]
      refine List.pairwise_cons.mpr ⟨?_, hp⟩
      intro y hy
      rcases List.mem_cons.mp hy with rfl | hy2
      · exact h
      · exact le_trans (hb y hy2) h
    · simp only [insertDesc, if_neg h]
      refine List.pairwise_cons.mpr ⟨?_, ih ht⟩
      intro y hy
      rcases mem_insertDesc.mp hy with rfl | hy2
      · omega
      · exact hb y hy2

/-- The stable descending sort is sorted (descending, by the key). -/
theorem sortDesc_pairwise (k : PyVal → Int) :
    ∀ (l : List PyVal), List.Pairwise (fun x y => k y ≤ k x) (sortDesc k l) := by
  intro l
  induction l with
  | nil => exact List.Pairwise.nil
  | cons a t ih => exact insertDesc_pairwise k a ih

/-- Bounds for Python's `round` of a mean of judge scores: when the sum is
in `[0, 100 * n]` the rounded mean is in `[0, 100]`. -/
theorem pyRound_bounds (s : Int) (n : Nat) (hn : 0 < n) (h0 : 0 ≤ s) (h1 : s ≤ 100 * n) :
    0 ≤ pyRound s n ∧ pyRound s n ≤ 100 := by
  have hnz : (0 : Int) < (n : Int) := by exact_mod_cast hn
  simp only [pyRound]
  rw [Int.fdiv_eq_ediv s hnz.le]
  have hqr := Int.ediv_add_emod s (n : Int)
  rw [mul_comm ((n : Int)) (s / (n : Int))] at hqr
  have hr0 : 0 ≤ s % (n : Int) := Int.emod_nonneg s hnz.ne'
  have hr1 : s % (n : Int) < (n : Int) := Int.emod_lt_of_pos s hnz
  have hq0 : 0 ≤ s / (n : Int) := Int.ediv_nonneg h0 hnz.le
  have hq100 : s / (n : Int) ≤ 100 := by
    by_contra hlt
    push_neg at hlt
    have h101 : 101 ≤ s / (n : Int) := hlt
    have : 101 * (n : Int) ≤ (s / (n : Int)) * (n : Int) :=
      mul_le_mul_of_nonneg_right h101 hnz.le
    omega
  have hrdef : s - s / (n : Int) * (n : Int) = s % (n : Int) := by omega
  rw [hrdef]
  have htop : s / (n : Int) = 100 → s % (n : Int) = 0 := by
    intro h100
    rw [h100] at hqr
    omega
  split_ifs with hc1 hc2 hc3
  · exact ⟨hq0, hq100⟩
  · refine ⟨by omega, ?_⟩
    by_contra hover
    push_neg at hover
    have : s / (n : Int) = 100 := by omega
    have := htop this
    omega
  · exact ⟨hq0, hq100⟩
  · refine ⟨by omega, ?_⟩
    by_contra hover
    push_neg at hover
    have : s / (n : Int) = 100 := by omega
    have := htop this
    omega

/-- The retry call (`is_retry=True`) sends exactly one prompt to the
backend: it never re-enters itself. -/
theorem call_true_prompts (gen : String → GenOut) (parse : String → Except String PyVal)
    (p : String) : (call gen parse true p).2 = [p] := by
  cases hg : gen p with
  | exn e => simp [call, hg]
  | text t =>
    cases he : extractJson t with
    | none => simp [call, hg, he]
    | some c =>
      cases hp2 : parse c with
      | ok v => simp [call, hg, he, hp2]
      | error e => simp [call, hg, he, hp2]

/-- Inversion for a successful `Except` bind. -/
theorem exceptBind_ok {ε α β : Type} {ma : Except ε α} {f : α → Except ε β} {b : β}
    (h : (ma >>= f) = .ok b) : ∃ a, ma = .ok a ∧ f a = .ok b := by
  cases ma with
  | error e => simp [Bind.bind, Except.bind] at h
  | ok a => exact ⟨a, rfl, by simpa [Bind.bind, Except.bind] using h⟩

/-- Summing judge scores that are all integers in `[0, 100]` succeeds, with
the sum bounded by `acc + 100 * count`. -/
theorem pyScoreSum_bounds_aux :
    ∀ (judges : List PyVal) (acc : Int),
      (∀ e ∈ judges, ∃ m : Int, pyGetD e "total_score" (.vint 0) = .vint m ∧ 0 ≤ m ∧ m ≤ 100) →
      ∃ total, judges.foldlM (fun acc e => pyAddScore acc (pyGetD e "total_score" (.vint 0))) acc
          = .ok total ∧ acc ≤ total ∧ total ≤ acc + 100 * judges.length := by
  intro judges
  induction judges with
  | nil =>
    intro acc _
    exact ⟨acc, rfl, le_refl _, by simp⟩
  | cons e rest ih =>
    intro acc h
    obtain ⟨m, hm, hm0, hm100⟩ := h e (List.mem_cons_self e rest)
    obtain ⟨total, htot, h1, h2⟩ := ih (acc + m) (fun x hx => h x (List.mem_cons_of_mem _ hx))
    refine ⟨total, ?_, by omega, ?_⟩
    · rw [List.foldlM_cons, hm]
      exact htot
    · simp only [List.length_cons]
      push_cast
      omega

/-- `pyScoreSum` bounds for a list of valid integer scores. -/
theorem pyScoreSum_bounds {judges : List PyVal}
    (h : ∀ e ∈ judges, ∃ m : Int, pyGetD e "total_score" (.vint 0) = .vint m ∧ 0 ≤ m ∧ m ≤ 100) :
    ∃ total, pyScoreSum judges = .ok total ∧ 0 ≤ total ∧ total ≤ 100 * judges.length := by
  obtain ⟨t, ht, h1, h2⟩ := pyScoreSum_bounds_aux judges 0 h
  exact ⟨t, ht, h1, by omega⟩

/-- Every collected judge response passed the validity check and came from
the gateway. -/
theorem validJudges_mem {llm : String → PyVal} {problem : String} {evaluators : List PyVal}
    {s e : PyVal} (h : e ∈ validJudges llm problem evaluators s) :
    isValidEvaluation e = true ∧ ∃ p, llm p = e := by
  unfold validJudges at h
  rw [List.mem_filterMap] at h
  obtain ⟨ctx, _, he⟩ := h
  dsimp only at he
  split at he
  · cases he
    exact ⟨by assumption, ⟨getEvaluationPrompt s problem ctx, rfl⟩⟩
  · cases he

/-- Shape of a successful aggregation: the entry stores its solution and the
banker's-rounded mean of exactly the valid judges' scores. -/
theorem aggregateOne_ok_some {llm : String → PyVal} {problem : String}
    {evaluators : List PyVal} {s x : PyVal}
    (h : aggregateOne llm problem evaluators s = .ok (some x)) :
    validJudges llm problem evaluators s ≠ [] ∧
    ∃ total, pyScoreSum (validJudges llm problem evaluators s) = .ok total ∧
      pyGetD x "solution" .vnone = s ∧
      pyGetD (pyGetD x "evaluation" (.vdict [])) "total_score" (.vint 0)
        = .vint (pyRound total (validJudges llm problem evaluators s).length) := by
  simp only [aggregateOne] at h
  split at h
  · simp at h
  · split at h
    · simp at h
    · rename_i hval hjne
      obtain ⟨total, hsum, h2⟩ := exceptBind_ok h
      refine ⟨by simpa [List.isEmpty_iff] using hjne, total, hsum, ?_⟩
      cases h2
      exact ⟨rfl, rfl⟩

/-- Every collected entry comes from aggregating one of the input
solutions. -/
theorem collectEvaluated_mem {llm : String → PyVal} {problem : String} {evaluators : List PyVal} :
    ∀ {sols entries : List PyVal},
      collectEvaluated llm problem evaluators sols = .ok entries →
      ∀ {x}, x ∈ entries → ∃ s ∈ sols, aggregateOne llm problem evaluators s = .ok (some x) := by
  intro sols
  induction sols with
  | nil =>
    intro entries h x hx
    unfold collectEvaluated at h
    cases h
    cases hx
  | cons s rest ih =>
    intro entries h x hx
    unfold collectEvaluated at h
    obtain ⟨r, hA, h2⟩ := exceptBind_ok h
    obtain ⟨t, hB, h3⟩ := exceptBind_ok h2
    cases h3
    rcases List.mem_append.mp hx with hx1 | hx2
    · cases r with
      | none => cases hx1
      | some y =>
        rcases List.mem_singleton.mp hx1 with rfl
        exact ⟨s, List.mem_cons_self s rest, hA⟩
    · obtain ⟨s2, hs2, hAs2⟩ := ih hB hx2
      exact ⟨s2, List.mem_cons_of_mem _ hs2, hAs2⟩

/-- A successful evaluation run is either empty or the sorted collection. -/
theorem evaluateSolutions_ok_shape {llm : String → PyVal} {sols : List PyVal} {problem : String}
    {ctx : PyVal} {r : List PyVal} (h : evaluateSolutions llm sols problem ctx = .ok r) :
    r = [] ∨ ∃ evaluators entries, ctx = .vlist evaluators ∧
      collectEvaluated llm problem evaluators sols = .ok entries ∧ r = sortDesc entryScore entries := by
  cases ctx with
  | vlist evaluators =>
    simp only [evaluateSolutions] at h
    split at h
    · cases h; exact Or.inl rfl
    · split at h
      · cases h; exact Or.inl rfl
      · obtain ⟨entries, hC, h2⟩ := exceptBind_ok h
        cases h2
        exact Or.inr ⟨evaluators, entries, rfl, hC, rfl⟩
  | vnone => simp only [evaluateSolutions] at h; cases h; exact Or.inl rfl
  | vbool b => simp only [evaluateSolutions] at h; cases h; exact Or.inl rfl
  | vint n => simp only [evaluateSolutions] at h; cases h; exact Or.inl rfl
  | vstr str => simp only [evaluateSolutions] at h; cases h; exact Or.inl rfl
  | vdict fs => simp only [evaluateSolutions] at h; cases h; exact Or.inl rfl

/-- Every entry of a successful evaluation aggregates one input solution. -/
theorem evaluateSolutions_mem {llm : String → PyVal} {sols : List PyVal} {problem : String}
    {ctx : PyVal} {r : List PyVal} {x : PyVal}
    (h : evaluateSolutions llm sols problem ctx = .ok r) (hx : x ∈ r) :
    ∃ evaluators, ctx = .vlist evaluators ∧
      ∃ s ∈ sols, aggregateOne llm problem evaluators s = .ok (some x) := by
  rcases evaluateSolutions_ok_shape h with rfl | ⟨evaluators, entries, rfl, hC, rfl⟩
  · cases hx
  · have hx2 : x ∈ entries := ((sortDesc_perm entryScore entries).mem_iff).mp hx
    exact ⟨evaluators, rfl, collectEvaluated_mem hC hx2⟩

/-- A successful evaluation result is sorted descending by the aggregated
score. -/
theorem evaluateSolutions_sorted {llm : String → PyVal} {sols : List PyVal} {problem : String}
    {ctx : PyVal} {r : List PyVal} (h : evaluateSolutions llm sols problem ctx = .ok r) :
    List.Pairwise (fun a b => entryScore b ≤ entryScore a) r := by
  rcases evaluateSolutions_ok_shape h with rfl | ⟨evaluators, entries, rfl, _, rfl⟩
  · exact List.Pairwise.nil
  · exact sortDesc_pairwise entryScore entries

/-- Every record accumulated by the evolution loop is either inherited or a
successful evaluation output. -/
theorem evolveLoop_records {llm : String → PyVal} {draws : Nat → Nat → ℚ}
    {picks : Nat → Nat → Nat} {ns : Nat} {problem : String} {personas : PyVal} :
    ∀ (fuel i : Nat) (hist0 hist : List GenRecord),
      evolveLoop llm draws picks ns problem personas fuel i hist0 = .ok hist →
      ∀ rec ∈ hist, rec ∈ hist0 ∨
        ∃ sols, evaluateSolutions llm sols problem (pyGetD personas "evaluators" (.vlist []))
          = .ok rec.results := by
  intro fuel
  induction fuel with
  | zero =>
    intro i hist0 hist h rec hrec
    cases h
    exact Or.inl hrec
  | succ fuel ih =>
    intro i hist0 hist h rec hrec
    simp only [evolveLoop] at h
    split at h
    · cases h; exact Or.inl hrec
    · split at h
      · cases h; exact Or.inl hrec
      · obtain ⟨ev, hE, h2⟩ := exceptBind_ok h
        split at h2
        · cases h2; exact Or.inl hrec
        · rcases ih _ _ _ h2 rec hrec with h0 | hnew
          · rcases List.mem_append.mp h0 with h00 | h01
            · exact Or.inl h00
            · rcases List.mem_singleton.mp h01 with rfl
              exact Or.inr ⟨_, hE⟩
          · exact Or.inr hnew

/-- Every Run History record of a successful `solve_internal` run is a
successful evaluation output. -/
theorem solveInternal_records {llm : String → PyVal} {draws : Nat → Nat → ℚ}
    {picks : Nat → Nat → Nat} {ns : Nat} {problem : String} {personas : PyVal}
    {gens : Nat} {hist : List GenRecord}
    (h : solveInternal llm draws picks ns problem personas gens = .ok hist) :
    ∀ rec ∈ hist, ∃ sols,
      evaluateSolutions llm sols problem (pyGetD personas "evaluators" (.vlist []))
        = .ok rec.results := by
  simp only [solveInternal] at h
  split at h
  · cases h
    intro rec hrec
    cases hrec
  · obtain ⟨ev, hE, h2⟩ := exceptBind_ok h
    split at h2
    · cases h2
      intro rec hrec
      cases hrec
    · intro rec hrec
      rcases evolveLoop_records _ _ _ _ h2 rec hrec with h0 | hnew
      · rcases List.mem_singleton.mp h0 with rfl
        exact ⟨_, hE⟩
      · exact hnew

/-- The query loop collects nothing when every search response lacks a
`results` key. -/
theorem gatherResults_aux {search : String → PyVal} (hs : ∀ q, hasResultsB (search q) = false) :
    ∀ (qs : List PyVal), isStrList (.vlist qs) = true →
      ∀ acc : List PyVal,
        qs.foldlM (fun (acc : List PyVal) (q : PyVal) =>
          (match q with
          | .vstr s =>
            if s.trim.isEmpty then .ok acc
            else
              let resp := search s
              match resp with
              | .vdict _ =>
                if hasKeyB resp "results" then
                  match pyGetD resp "results" .vnone with
                  | .vlist rs => .ok (acc ++ rs)
                  | _ => .error "TypeError: extend argument is not iterable"
                else .ok acc
              | _ => .ok acc
          | _ => .error "AttributeError: query has no attribute strip" : Except String (List PyVal)))
          acc = .ok acc := by
  intro qs
  induction qs with
  | nil =>
    intro _ acc
    rfl
  | cons q rest ih =>
    intro hq acc
    have hq2 : isStrList (.vlist rest) = true := by
      simp only [isStrList, List.all_cons, Bool.and_eq_true] at hq
      simp [isStrList, hq.2]
    cases q with
    | vstr str =>
      rw [List.foldlM_cons]
      by_cases ht : str.trim.isEmpty
      · simp only [ht, ite_true]
        exact ih hq2 acc
      · simp only [ht, ite_false]
        have hres := hs str
        cases hsr : search str with
        | vdict fs =>
          rw [hsr] at hres
          simp only [hasResultsB, isDictB, Bool.true_and] at hres
          simp only [hsr, hres, ite_false]
          exact ih hq2 acc
        | vnone => simp only [hsr]; exact ih hq2 acc
        | vbool b => simp only [hsr]; exact ih hq2 acc
        | vint n => simp only [hsr]; exact ih hq2 acc
        | vstr s2 => simp only [hsr]; exact ih hq2 acc
        | vlist l => simp only [hsr]; exact ih hq2 acc
    | vnone => simp [isStrList] at hq
    | vbool b => simp [isStrList] at hq
    | vint n => simp [isStrList] at hq
    | vlist l => simp [isStrList] at hq
    | vdict fs => simp [isStrList] at hq

/-- When every Search Gateway call returns an error shape, no documents are
collected. -/
theorem gatherResults_no_documents {search : String → PyVal} {queries : PyVal}
    (hs : ∀ q, hasResultsB (search q) = false) (hq : isStrList queries = true) :
    gatherResults search queries = .ok [] := by
  cases queries with
  | vlist qs => exact gatherResults_aux hs qs hq []
  | vnone => simp [isStrList] at hq
  | vbool b => simp [isStrList] at hq
  | vint n => simp [isStrList] at hq
  | vstr str => simp [isStrList] at hq
  | vdict fs => simp [isStrList] at hq

/-- C1: for every proposal scored by the Multi-Judge Evaluator, the
aggregated `total_score` equals Python `round` (banker's rounding, as the
source's `round(sum/len)` computes) of the mean of the `total_score` values
of exactly the judges that returned a valid response (a dict with a
`total_score` key and no `error` key), and any proposal for which zero
evaluator calls return a valid response is absent from the generation's
results list. -/
theorem multi_judge_aggregation (llm : String → PyVal) (problem : String)
    (evaluators : List PyVal) (solutions : List PyVal) (r : List PyVal)
    (h : evaluateSolutions llm solutions problem (.vlist evaluators) = .ok r) :
    (∀ x ∈ r,
      validJudges llm problem evaluators (pyGetD x "solution" .vnone) ≠ [] ∧
      ∃ total,
        pyScoreSum (validJudges llm problem evaluators (pyGetD x "solution" .vnone)) = .ok total ∧
        pyGetD (pyGetD x "evaluation" (.vdict [])) "total_score" (.vint 0)
          = .vint (pyRound total
              (validJudges llm problem evaluators (pyGetD x "solution" .vnone)).length))
    ∧ (∀ s, validJudges llm problem evaluators s = [] →
        ∀ x ∈ r, pyGetD x "solution" .vnone ≠ s) := by
  constructor
  · intro x hx
    obtain ⟨evs, heq, s, _, hagg⟩ := evaluateSolutions_mem h hx
    injection heq with heq2
    subst heq2
    obtain ⟨hne, total, hsum, hsol, hscore⟩ := aggregateOne_ok_some hagg
    rw [hsol]
    exact ⟨hne, total, hsum, hscore⟩
  · intro s hjz x hx hxs
    obtain ⟨evs, heq, s2, _, hagg⟩ := evaluateSolutions_mem h hx
    injection heq with heq2
    subst heq2
    obtain ⟨hne, _, _, hsol, _⟩ := aggregateOne_ok_some hagg
    rw [hsol] at hxs
    rw [hxs] at hne
    exact hne hjz

/-- C1 witness: a concrete two-proposal, one-judge run in which the head
entry's aggregated score is `round(80 / 1) = 80`. -/
theorem multi_judge_aggregation_w :
    pyGetD (pyGetD (resultsGood.headD .vnone) "evaluation" (.vdict [])) "total_score" (.vint 0)
      = .vint 80 := by
  have h := multi_judge_aggregation llmGood "課題" [evalA] [solA, solA] resultsGood (by rfl)
  have hm : resultsGood.headD .vnone ∈ resultsGood := by
    have hl : resultsGood.length = 2 := by rfl
    cases hh : resultsGood with
    | nil => rw [hh] at hl; simp at hl
    | cons a t => simp [hh]
  obtain ⟨hne, total, hsum, hscore⟩ := h.1 _ hm
  rw [hscore]
  have hsum80 : pyScoreSum (validJudges llmGood "課題" [evalA]
      (pyGetD (resultsGood.headD .vnone) "solution" .vnone)) = .ok 80 := by rfl
  rw [hsum80] at hsum
  cases hsum
  rfl

/-- C2 (amended): every Run History record's `results` are sorted descending
by the aggregated `total_score`, every aggregated score is the integer
banker's-rounded judge mean (so an integer), and the scores lie in `[0, 100]`
provided every valid judge response carries an integer score in `[0, 100]` —
the code itself never clamps or range-checks the judges' scores. -/
theorem generation_record_invariants (llm : String → PyVal) (draws : Nat → Nat → ℚ)
    (picks : Nat → Nat → Nat) (ns : Nat) (problem : String) (personas : PyVal)
    (gens : Nat) (hist : List GenRecord)
    (h : solveInternal llm draws picks ns problem personas gens = .ok hist) :
    (∀ rec ∈ hist, List.Pairwise (fun a b => entryScore b ≤ entryScore a) rec.results
      ∧ ∀ x ∈ rec.results,
          pyGetD (pyGetD x "evaluation" (.vdict [])) "total_score" (.vint 0)
            = .vint (entryScore x))
    ∧ ((∀ p, scoreOkB (llm p) = true) →
        ∀ rec ∈ hist, ∀ x ∈ rec.results, 0 ≤ entryScore x ∧ entryScore x ≤ 100) := by
  have hrecs := solveInternal_records h
  constructor
  · intro rec hrec
    obtain ⟨sols, hE⟩ := hrecs rec hrec
    refine ⟨evaluateSolutions_sorted hE, ?_⟩
    intro x hx
    obtain ⟨evs, _, s, _, hagg⟩ := evaluateSolutions_mem hE hx
    obtain ⟨_, total, _, _, hscore⟩ := aggregateOne_ok_some hagg
    have hes : entryScore x = pyRound total (validJudges llm problem evs s).length := by
      unfold entryScore
      rw [hscore]
    rw [hes, hscore]
  · intro hok rec hrec x hx
    obtain ⟨sols, hE⟩ := hrecs rec hrec
    obtain ⟨evs, _, s, _, hagg⟩ := evaluateSolutions_mem hE hx
    obtain ⟨hne, total, hsum, _, hscore⟩ := aggregateOne_ok_some hagg
    have hjudge : ∀ e ∈ validJudges llm problem evs s, ∃ m : Int,
        pyGetD e "total_score" (.vint 0) = .vint m ∧ 0 ≤ m ∧ m ≤ 100 := by
      intro e he
      obtain ⟨hv, p, hp⟩ := validJudges_mem he
      have hsc := hok p
      rw [hp] at hsc
      unfold scoreOkB at hsc
      rw [if_pos hv] at hsc
      cases hm : pyGetD e "total_score" (.vint 0) with
      | vint m =>
        rw [hm] at hsc
        simp only [Bool.and_eq_true, decide_eq_true_eq] at hsc
        exact ⟨m, rfl, hsc.1, hsc.2⟩
      | vnone => rw [hm] at hsc; cases hsc
      | vbool b => rw [hm] at hsc; cases hsc
      | vstr str => rw [hm] at hsc; cases hsc
      | vlist l => rw [hm] at hsc; cases hsc
      | vdict fs => rw [hm] at hsc; cases hsc
    obtain ⟨total2, hsum2, h0, h1⟩ := pyScoreSum_bounds hjudge
    rw [hsum] at hsum2
    cases hsum2
    have hlen : 0 < (validJudges llm problem evs s).length := List.length_pos.mpr hne
    have hb := pyRound_bounds total (validJudges llm problem evs s).length hlen h0 h1
    have hes : entryScore x = pyRound total (validJudges llm problem evs s).length := by
      unfold entryScore
      rw [hscore]
    rw [hes]
    exact hb

/-- C2 witness: the concrete `llmGood` run (all judge scores 80) produces a
record whose head entry's score lies in `[0, 100]`. -/
theorem generation_record_invariants_w :
    0 ≤ entryScore ((histGood.headD default).results.headD .vnone)
    ∧ entryScore ((histGood.headD default).results.headD .vnone) ≤ 100 := by
  have h := generation_record_invariants llmGood draws0 picks0 3 "課題" (llmGood "任意") 2
    histGood (by rfl)
  have hrec : histGood.headD default ∈ histGood := by
    have hl : histGood.length = 2 := by rfl
    cases hh : histGood with
    | nil => rw [hh] at hl; simp at hl
    | cons a t => simp [hh]
  have hx : (histGood.headD default).results.headD .vnone ∈ (histGood.headD default).results := by
    have hl : (histGood.headD default).results.length = 2 := by rfl
    cases hh : (histGood.headD default).results with
    | nil => rw [hh] at hl; simp at hl
    | cons a t => simp [hh]
  exact h.2 (fun p => rfl) _ hrec _ hx

/-- C2 counterexample: a judge response with `total_score = 150` passes the
validity check unclamped, so the appended generation record carries an
aggregated `total_score` of 150, outside `[0, 100]`. -/
theorem generation_record_range_cex :
    ((solveInternal llmBad draws0 picks0 3 "課題" (llmBad "任意") 1).map
      (fun h => h.map (fun rec => rec.results.map entryScore))) = .ok [[150]]
    ∧ ¬((150 : Int) ≤ 100) := ⟨by rfl, by decide⟩

/-- C3: for a non-empty evaluated-results list of length `n`, the elite
subset is exactly the first `max(1, ⌊0.4 * n⌋)` entries and the failed
subset exactly the rest, so they partition the list. -/
theorem elite_failed_partition (evaluated : List PyVal) (h : evaluated ≠ []) :
    eliteSolutions evaluated = evaluated.take (max 1 (2 * evaluated.length / 5))
    ∧ failedSolutions evaluated = evaluated.drop (max 1 (2 * evaluated.length / 5))
    ∧ eliteSolutions evaluated ++ failedSolutions evaluated = evaluated
    ∧ (eliteSolutions evaluated).length = max 1 (2 * evaluated.length / 5)
    ∧ (failedSolutions evaluated).length
        = evaluated.length - max 1 (2 * evaluated.length / 5) := by
  have hn : 0 < evaluated.length := List.length_pos.mpr h
  have hle : max 1 (2 * evaluated.length / 5) ≤ evaluated.length := by omega
  refine ⟨rfl, rfl, List.take_append_drop _ _, ?_, ?_⟩
  · show (evaluated.take (numElites evaluated.length)).length = _
    rw [List.length_take]
    unfold numElites
    omega
  · show (evaluated.drop (numElites evaluated.length)).length = _
    rw [List.length_drop]
    unfold numElites
    rfl

/-- C3 witness: with 2 evaluated entries the elite subset is the single top
entry and elite ++ failed restores the list. -/
theorem elite_failed_partition_w :
    eliteSolutions evaluatedW ++ failedSolutions evaluatedW = evaluatedW
    ∧ (eliteSolutions evaluatedW).length = 1 := by
  have h := elite_failed_partition evaluatedW (by simp [evaluatedW])
  refine ⟨h.2.2.1, ?_⟩
  rw [h.2.2.2.1]
  rfl

/-- Each elite entry's title/score line occurs verbatim in the recombination
prompt. -/
theorem eliteLine_infix (eliteSols failedSols : List PyVal) (problem : String) (n : Nat)
    (cx : PyVal) {s : PyVal} (hs : s ∈ eliteSols) :
    strInfix (eliteLine s) (getNextGenerationPrompt eliteSols failedSols problem n cx) := by
  have h1 : strInfix (eliteLine s) (pyJoin "\n" (eliteSols.map eliteLine)) :=
    mem_pyJoin_infix _ _ (List.mem_map_of_mem _ hs)
  simp only [getNextGenerationPrompt]
  iterate 7 apply strInfix_appendR
  apply strInfix_appendL
  exact h1

/-- Each failed entry's title/weaknesses line occurs verbatim in the
recombination prompt. -/
theorem failedLine_infix (eliteSols failedSols : List PyVal) (problem : String) (n : Nat)
    (cx : PyVal) {s : PyVal} (hs : s ∈ failedSols) :
    strInfix (failedLine s) (getNextGenerationPrompt eliteSols failedSols problem n cx) := by
  have h1 : strInfix (failedLine s) (pyJoin "\n" (failedSols.map failedLine)) :=
    mem_pyJoin_infix _ _ (List.mem_map_of_mem _ hs)
  simp only [getNextGenerationPrompt]
  iterate 5 apply strInfix_appendR
  apply strInfix_appendL
  exact h1

/-- C4: each evolve-step generation call branches on its own uniform draw
with threshold exactly 0.20 (mutation region `[0, 0.20)` of the unit
interval, measure 20/100; recombination region `[0.20, 1)`, measure 80/100);
a mutation-branch prompt is exactly the revolutionary prompt built from only
the problem statement and the roster's role denylist — independent of the
evaluated results — while a recombination-branch prompt contains every elite
entry's title/score line and every failed entry's title/weaknesses line. -/
theorem evolve_branching (draws : Nat → ℚ) (picks : Nat → Nat)
    (evaluated evaluated' : List PyVal) (problem : String) (agents : List PyVal) (i : Nat) :
    (∀ r : ℚ, r ∈ Set.Ico (0 : ℚ) 1 →
      ((r < 0.20 ↔ r ∈ Set.Ico (0 : ℚ) 0.20) ∧ (¬(r < 0.20) ↔ r ∈ Set.Ico (0.20 : ℚ) 1)))
    ∧ ((0.20 : ℚ) - 0 = 20 / 100 ∧ (1 : ℚ) - 0.20 = 80 / 100)
    ∧ (draws i < 0.20 →
        nextGenPrompt draws picks evaluated problem agents i
          = getRevolutionaryGenerationPrompt problem 1 (existingRoles agents)
        ∧ nextGenPrompt draws picks evaluated problem agents i
          = nextGenPrompt draws picks evaluated' problem agents i)
    ∧ (¬(draws i < 0.20) →
        (∀ s ∈ eliteSolutions evaluated,
          strInfix (eliteLine s) (nextGenPrompt draws picks evaluated problem agents i))
        ∧ (∀ s ∈ failedSolutions evaluated,
          strInfix (failedLine s) (nextGenPrompt draws picks evaluated problem agents i))) := by
  refine ⟨?_, ⟨by norm_num, by norm_num⟩, ?_, ?_⟩
  · intro r hr
    rw [Set.mem_Ico] at hr
    constructor
    · rw [Set.mem_Ico]
      constructor
      · intro hlt; exact ⟨hr.1, hlt⟩
      · intro hm; exact hm.2
    · rw [Set.mem_Ico]
      constructor
      · intro hge; exact ⟨not_lt.mp hge, hr.2⟩
      · intro hm; exact not_lt.mpr hm.1
  · intro hlt
    constructor
    · unfold nextGenPrompt
      rw [if_pos hlt]
    · unfold nextGenPrompt
      rw [if_pos hlt, if_pos hlt]
  · intro hge
    constructor
    · intro s hs
      unfold nextGenPrompt
      rw [if_neg hge]
      exact eliteLine_infix _ _ _ _ _ hs
    · intro s hs
      unfold nextGenPrompt
      rw [if_neg hge]
      exact failedLine_infix _ _ _ _ _ hs

/-- C4 witness: a draw of 1/10 takes the mutation branch (prompt equal to
the revolutionary prompt), a draw of 1/2 takes the recombination branch
(prompt containing the elite entry's line). -/
theorem evolve_branching_w :
    nextGenPrompt drawsM picksW evaluatedW "課題" [agentA] 0
      = getRevolutionaryGenerationPrompt "課題" 1 (existingRoles [agentA])
    ∧ strInfix (eliteLine entryW1) (nextGenPrompt drawsR picksW evaluatedW "課題" [agentA] 0) := by
  constructor
  · exact ((evolve_branching drawsM picksW evaluatedW evaluatedW "課題" [agentA] 0).2.2.1
      (by norm_num [drawsM])).1
  · refine ((evolve_branching drawsR picksW evaluatedW evaluatedW "課題" [agentA] 0).2.2.2
      (by norm_num [drawsR])).1 entryW1 ?_
    have he : eliteSolutions evaluatedW = [entryW1] := by rfl
    rw [he]
    exact List.mem_singleton.mpr rfl

/-- C5: the first-reported proposal of the final ranking is the maximum by
`total_score` over the flattened concatenation of every Generation Record's
results (not only the last generation), and among equal maximal scores the
first-seen entry in history order is reported first: the head of
`top_5_solutions` is exactly `firstMaxBy`, which is a member dominating all
scores whose earlier entries all score strictly lower. -/
theorem best_proposal_global (history : List GenRecord) (h : allSolutions history ≠ []) :
    ∃ m, (top5Solutions history).head? = some m
      ∧ firstMaxBy entryScore (allSolutions history) = some m
      ∧ m ∈ allSolutions history
      ∧ (∀ x ∈ allSolutions history, entryScore x ≤ entryScore m)
      ∧ ∃ pre post, allSolutions history = pre ++ m :: post
          ∧ ∀ x ∈ pre, entryScore x < entryScore m := by
  cases hl : allSolutions history with
  | nil => exact absurd hl h
  | cons a t =>
    refine ⟨List.foldl (fun b x => if entryScore b < entryScore x then x else b) a t,
      ?_, ?_, ?_, ?_, ?_⟩
    · unfold top5Solutions
      rw [hl]
      have hhead := sortDesc_head entryScore (a :: t)
      rw [firstMaxBy_cons] at hhead
      cases hsd : sortDesc entryScore (a :: t) with
      | nil => rw [hsd] at hhead; cases hhead
      | cons b u =>
        rw [hsd] at hhead
        simp only [List.head?_cons] at hhead
        simp only [List.take_succ_cons, List.head?_cons]
        exact hhead
    · exact firstMaxBy_cons _ _ _
    · rcases foldl_max_mem entryScore t a with hm | hm
      · rw [hm]; exact List.mem_cons_self _ _
      · exact List.mem_cons_of_mem _ hm
    · obtain ⟨h1, h2⟩ := foldl_max_ge entryScore t a
      intro x hx
      rcases List.mem_cons.mp hx with rfl | hx2
      · exact h1
      · exact h2 x hx2
    · rcases foldl_max_first entryScore t a with hm | ⟨pre, post, hsplit, hgt, hpre⟩
      · refine ⟨[], t, ?_, ?_⟩
        · rw [hm]
          rfl
        · intro x hx; cases hx
      · refine ⟨a :: pre, post, ?_, ?_⟩
        · rw [List.cons_append]
          exact congrArg (List.cons a) hsplit
        · intro x hx
          rcases List.mem_cons.mp hx with rfl | hx2
          · exact hgt
          · exact hpre x hx2

/-- C5 witness: in a concrete two-record history (scores 40 then 80) the
reported best is the score-80 entry from the later generation. -/
theorem best_proposal_global_w :
    (top5Solutions histW).head? = some entryW1 := by
  have hne : allSolutions histW ≠ [] := by
    have hcomp : allSolutions histW = [entryW2, entryW1] := by rfl
    rw [hcomp]
    exact List.cons_ne_nil _ _
  obtain ⟨m, h1, h2, _⟩ := best_proposal_global histW hne
  have hf : firstMaxBy entryScore (allSolutions histW) = some entryW1 := by rfl
  rw [hf] at h2
  cases h2
  exact h1

/-- Reducing a successful bind. -/
theorem exceptOkBind {ε α β : Type} (a : α) (f : α → Except ε β) :
    (Except.ok a >>= f : Except ε β) = f a := rfl

/-- C6: the Model Gateway's call performs at most one JSON-repair re-prompt
(at most two backend prompts in total); a backend exception is converted to
an `error` sentinel; and when the repair response again fails to yield
parseable JSON, call returns the sentinel dict carrying the raw repair text
and the parse error, never an exception. -/
theorem gateway_repair_policy (gen : String → GenOut) (parse : String → Except String PyVal)
    (prompt : String) :
    ((call gen parse false prompt).2.length ≤ 2)
    ∧ (∀ e, gen prompt = .exn e →
        call gen parse false prompt = (.vdict [("error", .vstr e)], [prompt]))
    ∧ (∀ t c e1 t2, gen prompt = .text t → extractJson t = some c → parse c = .error e1 →
        gen (getJsonRepairPrompt t) = .text t2 →
        (∀ c2 e2, extractJson t2 = some c2 → parse c2 = .error e2 →
          call gen parse false prompt
            = (.vdict [("raw_text", .vstr t2),
                ("parse_error", .vstr ("Retry failed: " ++ e2))],
               [prompt, getJsonRepairPrompt t]))
        ∧ (extractJson t2 = none →
          call gen parse false prompt
            = (.vdict [("raw_text", .vstr t2),
                ("parse_error", .vstr "Retry failed: No JSON block found")],
               [prompt, getJsonRepairPrompt t]))) := by
  refine ⟨?_, ?_, ?_⟩
  · cases hg : gen prompt with
    | exn e => simp [call, hg]
    | text t =>
      cases he : extractJson t with
      | none =>
        cases hg2 : gen (getJsonRepairPrompt t) with
        | exn e => simp [call, hg, he, hg2]
        | text t2 =>
          cases he2 : extractJson t2 with
          | none => simp [call, hg, he, hg2, he2]
          | some c2 =>
            cases hp3 : parse c2 with
            | ok v => simp [call, hg, he, hg2, he2, hp3]
            | error e2 => simp [call, hg, he, hg2, he2, hp3]
      | some c =>
        cases hp2 : parse c with
        | ok v => simp [call, hg, he, hp2]
        | error e =>
          cases hg2 : gen (getJsonRepairPrompt t) with
          | exn e2 => simp [call, hg, he, hp2, hg2]
          | text t2 =>
            cases he2 : extractJson t2 with
            | none => simp [call, hg, he, hp2, hg2, he2]
            | some c2 =>
              cases hp3 : parse c2 with
              | ok v => simp [call, hg, he, hp2, hg2, he2, hp3]
              | error e2 => simp [call, hg, he, hp2, hg2, he2, hp3]
  · intro e hg
    simp [call, hg]
  · intro t c e1 t2 hg he hp hg2
    constructor
    · intro c2 e2 he2 hp2
      simp [call, hg, he, hp, hg2, he2, hp2]
    · intro he2
      simp [call, hg, he, hp, hg2, he2]

/-- C6 witness: a backend that always answers `"a[b]"` with a parser that
always fails drives call into the double-failure sentinel after exactly two
prompts. -/
theorem gateway_repair_policy_w :
    (call genW parseW false "プロンプト").1
      = .vdict [("raw_text", .vstr "a[b]"), ("parse_error", .vstr "Retry failed: bad")]
    ∧ (call genW parseW false "プロンプト").2.length ≤ 2 := by
  have h := gateway_repair_policy genW parseW "プロンプト"
  have h3 := (h.2.2 "a[b]" "[b]" "bad" "a[b]" rfl (by rfl) rfl rfl).1 "[b]" "bad" (by rfl) rfl
  constructor
  · rw [h3]
    rfl
  · exact h.1

/-- C7: when the Persona Synthesizer's structured result fails validation
(missing `solver_agents`/`evaluators`/`output_labels` keys, gateway-failure
`error` key, or falsy), the run terminates with an empty Run History — no
seeding, evaluation, or evolution phase contributes any record, whatever
the configuration or random draws. -/
theorem persona_failure_aborts (llm : String → PyVal) (draws : Nat → Nat → ℚ)
    (picks : Nat → Nat → Nat) (numSolutions : Nat) (problem : String) (generations : Nat)
    (h : personasValid (llm (getAgentPersonasPrompt problem)) = false) :
    solve llm draws picks numSolutions problem generations = .ok [] := by
  unfold solve
  simp [h]

/-- C7 witness: the gateway's own parse-failure sentinel lacks the persona
keys, so the run aborts with zero Generation Records. -/
theorem persona_failure_aborts_w :
    solve llmNoPersonas draws0 picks0 10 "課題" 3 = .ok [] :=
  persona_failure_aborts llmNoPersonas draws0 picks0 10 "課題" 3 (by rfl)

/-- C8: when research query generation fails, or every Search Gateway call
returns an error shape (so no documents are collected), the augmented
problem statement equals the original problem statement unchanged, and the
run proceeds into the persona-synthesis pipeline on the original problem
rather than aborting. -/
theorem augmentation_degrades (llm search : String → PyVal) (draws : Nat → Nat → ℚ)
    (picks : Nat → Nat → Nat) (ns rq gens : Nat) (problem : String)
    (h : ((!(isDictB (llm (getTavilyMultiPhaseQueryPrompt problem)))
          || (!(hasKeyB (llm (getTavilyMultiPhaseQueryPrompt problem)) "analysis_queries")
              && !(hasKeyB (llm (getTavilyMultiPhaseQueryPrompt problem)) "solution_queries")))
            = true)
       ∨ (isStrList (pyGetD (llm (getTavilyMultiPhaseQueryPrompt problem))
            "analysis_queries" (.vlist [])) = true
          ∧ isStrList (pyGetD (llm (getTavilyMultiPhaseQueryPrompt problem))
            "solution_queries" (.vlist [])) = true
          ∧ ∀ q, hasResultsB (search q) = false)) :
    computeAugmentedProblem llm search problem = .ok problem
    ∧ solveTavily llm search draws picks ns rq gens problem
        = solveTavilyFrom llm search draws picks ns rq gens problem := by
  have hc : computeAugmentedProblem llm search problem = .ok problem := by
    rcases h with h1 | ⟨ha, hsq, hs⟩
    · simp only [computeAugmentedProblem]
      rw [if_pos h1]
    · simp only [computeAugmentedProblem]
      by_cases hcond : (!(isDictB (llm (getTavilyMultiPhaseQueryPrompt problem)))
          || (!(hasKeyB (llm (getTavilyMultiPhaseQueryPrompt problem)) "analysis_queries")
              && !(hasKeyB (llm (getTavilyMultiPhaseQueryPrompt problem)) "solution_queries")))
            = true
      · rw [if_pos hcond]
      · rw [if_neg hcond]
        split
        · rw [gatherResults_no_documents hs ha]
          simp only [exceptOkBind]
          split
          · rw [gatherResults_no_documents hs hsq]
            simp only [exceptOkBind]
            rfl
          · rfl
        · simp only [exceptOkBind]
          split
          · rw [gatherResults_no_documents hs hsq]
            simp only [exceptOkBind]
            rfl
          · rfl
  refine ⟨hc, ?_⟩
  unfold solveTavily
  rw [hc]
  rfl

/-- C8 witness: queries are generated but every Tavily call errors — the
augmented problem is the original and the pipeline continues from persona
synthesis on it. -/
theorem augmentation_degrades_w :
    computeAugmentedProblem llmQueries searchErr "課題" = .ok "課題"
    ∧ solveTavily llmQueries searchErr draws0 picks0 10 2 3 "課題"
        = solveTavilyFrom llmQueries searchErr draws0 picks0 10 2 3 "課題" :=
  augmentation_degrades llmQueries searchErr draws0 picks0 10 2 3 "課題"
    (Or.inr ⟨by rfl, by rfl, fun _ => rfl⟩)

/-- C9 (amended): persona validation checks only the presence of the
`solver_agents`/`evaluators`/`output_labels` keys — the counts 10 and 3 are
requested by the prompt but never enforced — and the generation-0 seed step
issues exactly one single-proposal call per entry of the roster it was
given, whatever its length. -/
theorem seed_one_call_per_persona (llm : String → PyVal) (problem : String)
    (agents : List PyVal) (h : agents ≠ []) :
    (generateInitialSolutions llm problem (.vlist agents)).2
      = agents.map (fun a => getInitialGenerationPrompt problem 1 a)
    ∧ (generateInitialSolutions llm problem (.vlist agents)).2.length = agents.length := by
  have hne : agents.isEmpty = false := by
    simpa [List.isEmpty_iff] using h
  constructor
  · simp [generateInitialSolutions, hne]
  · simp [generateInitialSolutions, hne]

/-- C9 witness: a two-persona roster triggers exactly two seed calls. -/
theorem seed_one_call_per_persona_w :
    (generateInitialSolutions llmGood "課題" (.vlist [agentA, agentB])).2.length = 2 := by
  have h := seed_one_call_per_persona llmGood "課題" [agentA, agentB] (by simp)
  rw [h.2]
  rfl

/-- C9 counterexample: a persona response with 2 solver and 1 evaluator
personas passes validation and the run proceeds to a full generation — so a
run past persona synthesis need not have a 10-solver, 3-evaluator roster. -/
theorem roster_size_counterexample :
    personasValid (llmGood "任意のプロンプト") = true
    ∧ pyListLen (pyGetD (llmGood "任意のプロンプト") "solver_agents" (.vlist [])) = 2
    ∧ pyListLen (pyGetD (llmGood "任意のプロンプト") "evaluators" (.vlist [])) = 1
    ∧ (solve llmGood draws0 picks0 3 "課題" 1).map List.length = .ok 1
    ∧ ¬(2 = 10) ∧ ¬(1 = 3) :=
  ⟨by rfl, by rfl, by rfl, by rfl, by decide, by decide⟩

/-- C10: a judge response whose `total_score` is the string `"85"` passes
the evaluator's validity check (a dict with a `total_score` key and no
`error` key), yet the aggregation's `sum(...)` then raises `TypeError`,
which propagates out of `_evaluate_solutions` — contradicting the spec's
rule that no raw exception crosses a component boundary. -/
theorem judge_type_error_raises :
    isValidEvaluation (llmStrScore "任意のプロンプト") = true
    ∧ evaluateSolutions llmStrScore [solA] "課題" (.vlist [evalA])
        = .error "TypeError: unsupported operand type(s) for +" :=
  ⟨by rfl, by rfl⟩

end EvoGen

